import Mathlib

/-!
Verification development for the SDS-Extract repository.

The Python sources (src/sds_extractor.py, src/ai_extractor.py,
src/ml_extractor.py) are shallowly embedded below.  Conventions:

* Python `dict` (insertion ordered, unique keys) is modelled by the
  association list `PyDict` with update-in-place semantics for existing
  keys and append semantics for new keys.
* Python regular-expression primitives (`re.search`, `re.findall`,
  `re.finditer`, content-dependent `re.sub`) are modelled by an explicit
  oracle `ReEngine` threaded through every embedded function; pattern
  strings are reproduced verbatim from the source and passed to the
  oracle exactly where the source calls `re`.  Two regex uses with
  trivial semantics are implemented concretely and proved nothing about
  Python internals: `re.sub(r'\s+', ' ', s)` (whitespace-run collapse)
  and the literal-alternation search
  `re.search(r'1-Methyl-2-pyrrolidone|Methyl-2-pyrrolidinone|NMP\b|872-50-4', text, re.IGNORECASE)`
  (case-insensitive substring / word-boundary containment).
* Network calls (OpenAI/Anthropic, and the specialized ML extractor
  calls) are external collaborators per the specification; they are
  modelled at their return interfaces by the environments `AIEnv` and
  `MLEnv`.
* JSON values that the code manipulates are modelled by `JVal`
  (strings and lists of strings), the shapes the embedded control flow
  distinguishes; `json.loads` is modelled by the environment's `jsonParse`.
-/

/-- Python whitespace characters (`\s` over ASCII text). -/
def isPyWs (c : Char) : Bool :=
  c == ' ' || c == '\t' || c == '\n' || c == '\r' || c == '\x0b' || c == '\x0c'

/-- Helper for `collapseWs`: the flag records whether the previous character
was whitespace (so the single replacement space was already emitted). -/
def collapseAux : Bool → List Char → List Char
  | _, [] => []
  | prevWs, c :: rest =>
    if isPyWs c then
      if prevWs then collapseAux true rest
      else ' ' :: collapseAux true rest
    else c :: collapseAux false rest

/-- Translation of Python `re.sub(r'\s+', ' ', s)`: every maximal run of
whitespace becomes a single space. -/
def collapseWs (s : String) : String := ⟨collapseAux false s.data⟩

/-- Characters of Python `str.strip()` applied to a character list. -/
def pyStripChars (l : List Char) : List Char :=
  ((l.dropWhile isPyWs).reverse.dropWhile isPyWs).reverse

/-- Translation of Python `str.strip()` (no arguments: strips whitespace). -/
def pyStrip (s : String) : String := ⟨pyStripChars s.data⟩

/-- Python `len` on a string (number of characters). -/
def pyLen (s : String) : Nat := s.data.length

/-- Python slicing `s[:n]`. -/
def pyTake (s : String) (n : Nat) : String := ⟨s.data.take n⟩

/-- Python `str.lower()` (ASCII case folding, which is all the sources use). -/
def pyLower (s : String) : String := ⟨s.data.map Char.toLower⟩

/-- Boolean infix test on character lists, used for Python's `in` on strings. -/
def listInfix (needle : List Char) : List Char → Bool
  | [] => needle.isPrefixOf []
  | c :: rest => needle.isPrefixOf (c :: rest) || listInfix needle rest

/-- Python `needle in hay` for strings. -/
def pyContains (hay needle : String) : Bool := listInfix needle.data hay.data

/-- Fueled worker for `pyReplace`; fuel is the length of the remaining text,
and each step consumes at least one character. -/
def pyReplaceAux (pat rep : List Char) : Nat → List Char → List Char
  | 0, l => l
  | _ + 1, [] => []
  | fuel + 1, c :: rest =>
    if pat ≠ [] && pat.isPrefixOf (c :: rest) then
      rep ++ pyReplaceAux pat rep fuel ((c :: rest).drop pat.length)
    else
      c :: pyReplaceAux pat rep fuel rest

/-- Python `s.replace(pat, rep)`: replace every (leftmost, non-overlapping)
occurrence of the literal substring `pat`. -/
def pyReplace (s pat rep : String) : String :=
  ⟨pyReplaceAux pat.data rep.data s.data.length s.data⟩

/-- Python `sep.join(l)`. -/
def pyJoin (sep : String) : List String → String
  | [] => ""
  | [x] => x
  | x :: y :: rest => x ++ sep ++ pyJoin sep (y :: rest)

/-- Concatenation of a list of strings (Python `+=` accumulation). -/
def pyConcat (l : List String) : String := pyJoin "" l

/-- Fueled worker for `pySplit`; fuel bounds the number of consumed
characters, and each step consumes at least one. -/
def pySplitAux (sep : List Char) : Nat → List Char → List Char → List (List Char)
  | 0, acc, l => [acc.reverse ++ l]
  | _ + 1, acc, [] => [acc.reverse]
  | fuel + 1, acc, c :: rest =>
    if sep ≠ [] && sep.isPrefixOf (c :: rest) then
      acc.reverse :: pySplitAux sep fuel [] ((c :: rest).drop sep.length)
    else pySplitAux sep fuel (c :: acc) rest

/-- Python `s.split(sep)` for a non-empty literal separator. -/
def pySplit (s sep : String) : List String :=
  (pySplitAux sep.data (s.data.length + 1) [] s.data).map (fun l => ⟨l⟩)

/-- Python `str()` rendering of a list of strings, e.g. `['a', 'b']`. -/
def pyListRepr (l : List String) : String :=
  "[" ++ pyJoin ", " (l.map (fun x => "\x27" ++ x ++ "\x27")) ++ "]"

/-- Worker for `dedupFirst`, carrying the set of already-emitted strings. -/
def dedupFirstAux (seen : List String) : List String → List String
  | [] => []
  | x :: rest =>
    if seen.contains x then dedupFirstAux seen rest
    else x :: dedupFirstAux (x :: seen) rest

/-- First-occurrence deduplication, modelling the iteration order we fix for
Python's `set(...)` where the source joins a set of matches (the CPython set
iteration order is unspecified; no claim below depends on the order). -/
def dedupFirst (l : List String) : List String := dedupFirstAux [] l

/-- A Python dictionary with string keys: insertion-ordered association list
with unique keys. -/
abbrev PyDict (α : Type) := List (String × α)

/-- Python `d.get(k)` / `d[k]` lookup. -/
def pdGet {α : Type} : PyDict α → String → Option α
  | [], _ => none
  | (k', v) :: t, k => if k' = k then some v else pdGet t k

/-- Python `d[k] = v`: update in place if the key exists, else append. -/
def pdSet {α : Type} : PyDict α → String → α → PyDict α
  | [], k, v => [(k, v)]
  | (k', v') :: t, k, v =>
    if k' = k then (k', v) :: t else (k', v') :: pdSet t k v

/-- Python `k in d`. -/
def pdHas {α : Type} (d : PyDict α) (k : String) : Bool := (pdGet d k).isSome

/-- Python `d.get(k, dflt)`. -/
def pdGetD {α : Type} (d : PyDict α) (k : String) (dflt : α) : α :=
  (pdGet d k).getD dflt

/-- Python `list(d.keys())`. -/
def pdKeys {α : Type} (d : PyDict α) : List String := d.map Prod.fst

/-- A Python `re` match object, reduced to the data the sources read: the
whole match (`group(0)`) and the captured groups (`group(1)`, ...).  The
modelled pattern tables only read groups that participate in the match. -/
structure ReMatch where
  group0 : String
  groups : List String
deriving DecidableEq

/-- Oracle for the Python `re` primitives the sources call.  Each component
takes the verbatim pattern string (first argument) and the subject text, and
is expected to behave as `re.search` / `re.findall` / `re.finditer` /
`re.sub` with the flags used at the corresponding call site.  Theorems
quantify over engines; concrete engines used in witnesses record the actual
`re` results for the concrete texts involved. -/
structure ReEngine where
  search : String → String → Option ReMatch
  findall : String → String → List String
  finditer3 : String → String → List (String × String × String)
  sub : String → String → String → String

/-- The trivial engine: no pattern matches anywhere.  Used as a witness
engine for texts on which, by hand-tracing `re`, no source pattern matches. -/
def defaultEngine : ReEngine where
  search := fun _ _ => none
  findall := fun _ _ => []
  finditer3 := fun _ _ => []
  sub := fun _ _ t => t

/-- The company-name patterns special-cased inside `extract_with_patterns`
(sds_extractor.py lines 620-627). -/
def specialCompanyPatterns : List String :=
  [ "SIGMA-ALDRICH", "ALDRICH", "SIGMA", "FLUKA", "SUPELCO", "MERCK",
    "(?:^|[\\s\\n])Sigma[\\- ]Aldrich(?:[\\s\\n]|$)",
    "(?:^|[\\s\\n])Merck(?:[\\s\\n]|$)",
    "(?:^|[\\s\\n])Merck\\s+Life\\s+Science(?:[\\s\\n]|$)",
    "(?:^|[\\s\\n])MilliporeSigma(?:[\\s\\n]|$)",
    "(?:^|[\\s\\n])Fisher\\s+Scientific(?:[\\s\\n]|$)" ]

/-- Company-name recovery from a special-cased pattern
(sds_extractor.py lines 629-634). -/
def companyNameOf (pattern : String) : String :=
  let company_name := pyReplace (pyReplace pattern "(?:^|[\\s\\n])" "") "(?:[\\s\\n]|$)" ""
  let company_name :=
    if pyContains company_name "|" then (pySplit company_name "|").headD company_name
    else company_name
  pyReplace company_name "[\\- ]" "-"

/-- Translation of `extract_with_patterns` (sds_extractor.py lines 616-644):
try the patterns in order; on the first match return group 1 stripped (or the
whole match stripped when the pattern has no capture group); special-case the
literal company-name patterns. -/
def extract_with_patterns (R : ReEngine) (text : String) : List String → String
  | [] => ""
  | pattern :: rest =>
    if specialCompanyPatterns.contains pattern then
      match R.search pattern text with
      | some _ => companyNameOf pattern
      | none => extract_with_patterns R text rest
    else
      match R.search pattern text with
      | some m =>
        match m.groups with
        | g1 :: _ => pyStrip g1
        | [] => pyStrip m.group0
      | none => extract_with_patterns R text rest

/-- Word character for the regex `\b` boundary (`[A-Za-z0-9_]`). -/
def isWordChar (c : Char) : Bool :=
  (c ≥ 'a' && c ≤ 'z') || (c ≥ 'A' && c ≤ 'Z') || (c ≥ '0' && c ≤ '9') || c == '_'

/-- Case-insensitive search for `NMP\b`: the literal `NMP` followed by a
non-word character or the end of the text. -/
def nmpWordSearch : List Char → Bool
  | c1 :: c2 :: c3 :: rest =>
    (c1.toLower == 'n' && c2.toLower == 'm' && c3.toLower == 'p' &&
      (match rest with
       | [] => true
       | r :: _ => !isWordChar r)) ||
    nmpWordSearch (c2 :: c3 :: rest)
  | _ => false

/-- Translation of
`re.search(r'1-Methyl-2-pyrrolidone|Methyl-2-pyrrolidinone|NMP\b|872-50-4', text, re.IGNORECASE)`
being non-`None` (sds_extractor.py lines 268 and 373): the pattern is an
alternation of literals (one with a trailing word boundary), so a match
exists exactly when one alternative occurs in the text case-insensitively. -/
def nmpTriggered (text : String) : Bool :=
  let tl := pyLower text
  pyContains tl "1-methyl-2-pyrrolidone" || pyContains tl "methyl-2-pyrrolidinone" ||
    nmpWordSearch text.data || pyContains tl "872-50-4"

/-- The fixed Health Hazards phrase for 1-Methyl-2-pyrrolidone
(sds_extractor.py line 271, ai_extractor.py line 217). -/
def nmpHealthHazardsPhrase : String :=
  "Reproductive Toxicity; Skin irritation; Eye irritation; Specific target organ toxicity, single exposure, Respiratory tract irritation"

theorem pdGet_of_const_map (l : List String) (k : String) (c : String)
    (h : k ∈ l) : pdGet (l.map (fun f => (f, c))) k = some c := by
  induction l with
  | nil => simp at h
  | cons hd t ih =>
    by_cases h2 : hd = k
    · simp [pdGet, h2]
    · rcases List.mem_cons.mp h with h3 | h3
      · exact absurd h3.symm h2
      · simp [pdGet, h2, ih h3]

/-- Health Category patterns (sds_extractor.py lines 117-162). -/
def health_category_patterns : List String :=
  [ "[Ss]kin\\s+(?:irritation|corrosion|sensitization)[^,\\n]*?[(\\s](?:Category|Cat\\.?)[)\\s]*(\\d[A-Z]?)",
    "[Ee]ye\\s+(?:irritation|damage)[^,\\n]*?[(\\s](?:Category|Cat\\.?)[)\\s]*(\\d[A-Z]?)",
    "[Rr]eproductive\\s+[Tt]oxicity[^,\\n]*?[(\\s](?:Category|Cat\\.?)[)\\s]*(\\d[A-Z]?)",
    "(?:STOT|[Ss]pecific\\s+[Tt]arget\\s+[Oo]rgan\\s+[Tt]oxicity)[^,\\n]*?[(\\s](?:Category|Cat\\.?)[)\\s]*(\\d[A-Z]?)",
    "[Aa]cute\\s+[Tt]oxicity[^,\\n]*?[(\\s](?:Category|Cat\\.?)[)\\s]*(\\d[A-Z]?)",
    "[Ss]kin\\s+[Cc]orrosion[^,\\n]*?[(\\s](?:Category|Cat\\.?)[)\\s]*(\\d[A-Z]?)",
    "[Rr]espiratory\\s+[Ss]ensitization[^,\\n]*?[(\\s](?:Category|Cat\\.?)[)\\s]*(\\d[A-Z]?)",
    "[Ee]ye\\s+[Ii]rrit\\.(?:\\s+|\\s*-\\s*|\\s*|\\.)(\\d+[A-Z]?)",
    "[Ss]kin\\s+[Ii]rrit\\.(?:\\s+|\\s*-\\s*|\\s*|\\.)(\\d+[A-Z]?)",
    "[Ss]kin\\s+[Cc]orr\\.(?:\\s+|\\s*-\\s*|\\s*|\\.)(\\d+[A-Z]?)",
    "[Aa]cute\\s+[Tt]ox\\.(?:\\s+|\\s*-\\s*|\\s*|\\.)(\\d+[A-Z]?)",
    "STOT\\s+SE(?:\\s+|\\s*-\\s*|\\s*|\\.)(\\d+[A-Z]?)",
    "STOT\\s+RE(?:\\s+|\\s*-\\s*|\\s*|\\.)(\\d+[A-Z]?)",
    "[Cc]arc\\.(?:\\s+|\\s*-\\s*|\\s*|\\.)(\\d+[A-Z]?)",
    "[Aa]sp\\.\\s+[Tt]ox\\.(?:\\s+|\\s*-\\s*|\\s*|\\.)(\\d+[A-Z]?)",
    "[Rr]esp\\.\\s+[Ss]ens\\.(?:\\s+|\\s*-\\s*|\\s*|\\.)(\\d+[A-Z]?)",
    "[Ss]kin\\s+[Ss]ens\\.(?:\\s+|\\s*-\\s*|\\s*|\\.)(\\d+[A-Z]?)",
    "[Ff]lam\\.\\s+[Ll]iq\\.(?:\\s+|\\s*-\\s*|\\s*|\\.)(\\d+[A-Z]?)",
    "[Rr]epr\\.(?:\\s+|\\s*-\\s*|\\s*|\\.)(\\d+[A-Z]?)",
    "[Mm]uta\\.(?:\\s+|\\s*-\\s*|\\s*|\\.)(\\d+[A-Z]?)",
    "(?:skin|eye|repro|reproductive|toxicity|respir|acute|damage|irritation|sens)[^,\\n]\x7b0,50\x7d?(?:Cat\\.|Category)[^,\\n]\x7b0,20\x7d?(\\d[A-Z]?)",
    "[Hh]uman health(?:[^(]*?)\\(?[^\\d]*(\\d[A-Z]?)\\)?",
    "[Hh]ealth(?:[^(]*?)\\(?[^\\d]*(\\d[A-Z]?)\\)?",
    "[Hh]ealth [Ee]ffects[^:]*?(?:Category|Cat\\.?)[^,\\n]*?(\\d[A-Z]?)",
    "EU[^:]*?[Cc]lass(?:[^(]*?)\\(?[^\\d]*(\\d[A-Z]?)\\)?",
    "CLP[^:]*?[Cc]lass(?:[^(]*?)\\(?[^\\d]*(\\d[A-Z]?)\\)?",
    "(?:Category|Cat\\.?)\\s*(\\d[A-Z]?)[^,\\n]\x7b0,100\x7d?(?:toxic|health|irritation|corrosion|sensitization|damage)",
    "(?:toxic|health|irritation|corrosion|sensitization|damage)[^,\\n]\x7b0,100\x7d?(?:Category|Cat\\.?)\\s*(\\d[A-Z]?)",
    "(?:SECTION\\s+2|2\\.)[^A-Z]\x7b0,500\x7d?(?:Category|Cat\\.?)\\s*(\\d[A-Z]?)" ]

/-- Pattern for section 2 content in the Health Category fallback
(sds_extractor.py line 170). -/
def section2ContentPattern : String :=
  "SECTION\\s+2[:\\.\\s]+.*?\\n(.*?)(?=SECTION\\s+3|$)"

/-- Category pattern used by `re.findall` in the fallback
(sds_extractor.py line 178). -/
def categoryFindPattern : String := "(?:Category|Cat\\.?)\\s*(\\d[A-Z]?)"

/-- Health-context category pattern used by `re.findall` in the fallback
(sds_extractor.py line 183). -/
def healthContextFindPattern : String :=
  "(?:skin|eye|repro|reproductive|toxicity|respir|acute|damage|irritation)[^,\\n]*?(?:Category|Cat\\.?)[^,\\n]*?(\\d[A-Z]?)"

/-- Physical Category patterns (sds_extractor.py lines 194-221). -/
def physical_category_patterns : List String :=
  [ "(?:Flammable|Explosive|Oxidizing)[^,\\n]\x7b0,50\x7d?(?:Category|Cat\\.?)\\s*(\\d[A-Z]?)",
    "(?:Category|Cat\\.?)\\s*(\\d[A-Z]?)[^,\\n]\x7b0,50\x7d?(?:flammable|explosive|reactive|oxidizing|oxidising|pyrophoric|self[\\s-]heating|corrosive|gas|liquid|solid)",
    "[Pp]hysical [Hh]azards?[^,\\n]\x7b0,50\x7d?(?:Category|Cat\\.?)\\s*(\\d[A-Z]?)",
    "[Ff]lam\\.\\s+(?:Liq\\.|Gas\\.|Sol\\.)[^,\\n]\x7b0,20\x7d?(\\d+[A-Z]?)",
    "[Ee]xpl\\.[^,\\n]\x7b0,20\x7d?(\\d+[A-Z]?)",
    "[Oo]x(?:id)?\\.\\s+(?:Gas\\.|Liq\\.|Sol\\.)[^,\\n]\x7b0,20\x7d?(\\d+[A-Z]?)",
    "[Pp]ress\\.\\s+[Gg]as[^,\\n]\x7b0,20\x7d?(\\d+[A-Z]?)",
    "[Ss]elf[\\s-][Rr]eact\\.[^,\\n]\x7b0,20\x7d?(\\d+[A-Z]?)",
    "[Pp]yr\\.\\s+(?:Liq\\.|Sol\\.)[^,\\n]\x7b0,20\x7d?(\\d+[A-Z]?)",
    "[Ss]elf[\\s-][Hh]eat\\.[^,\\n]\x7b0,20\x7d?(\\d+[A-Z]?)",
    "[Mm]et\\.\\s+[Cc]orr\\.[^,\\n]\x7b0,20\x7d?(\\d+[A-Z]?)",
    "(?:fire|explosion|reactivity|stability|decomposition)[^,\\n]\x7b0,50\x7d?(?:Category|Cat\\.?)\\s*(\\d[A-Z]?)",
    "(?:GHS|CLP|EU)[^A-Z]\x7b0,100\x7d?physical[^A-Z]\x7b0,100\x7d?(?:Category|Cat\\.?)\\s*(\\d[A-Z]?)",
    "(?:SECTION\\s+9|9\\.)[^A-Z]\x7b0,500\x7d?(?:Category|Cat\\.?)\\s*(\\d[A-Z]?)",
    "(?:physical|flammable|explosive|oxidizing|oxidising|self-heating|pyrophoric|corrosive)[^,\\n]\x7b0,100\x7d?(?:Category|Cat\\.?)\\s*(\\d[A-Z]?)" ]

/-- Hazard Statement patterns (sds_extractor.py lines 225-230). -/
def hazard_stmt_patterns : List String :=
  [ "Hazard statement(?:s)?[:\\s]+(.*?)(?:\\n\\s*[A-Z]|\\n\\n|Precautionary)",
    "H-statement(?:s)?[:\\s]+(.*?)(?:\\n\\s*[A-Z]|\\n\\n)",
    "(?:H\\d\x7b3\x7d)[^:]*?:[^:]*?(.*?)(?:\\n\\s*[A-Z]|\\n\\n)",
    "H\\d\x7b3\x7d(?:\\+\\d\x7b3\x7d)*\\s+([^.\\n]*)" ]

/-- H-code pattern used by `re.findall` (sds_extractor.py lines 235 and 253). -/
def hCodeFindPattern : String := "(H\\d\x7b3\x7d(?:\\+\\d\x7b3\x7d)*)"

/-- Standard hazard-statement descriptions (sds_extractor.py lines 242-250). -/
def hazard_mapping : PyDict String :=
  [ ("H315", "Causes skin irritation"),
    ("H319", "Causes serious eye irritation"),
    ("H335", "May cause respiratory irritation"),
    ("H360", "May damage fertility or the unborn child"),
    ("H360F", "May damage fertility"),
    ("H360D", "May damage the unborn child"),
    ("H360FD", "May damage fertility. May damage the unborn child") ]

/-- Generic health-hazard indicator patterns searched directly with
`re.search(..., re.IGNORECASE)` (sds_extractor.py lines 277-299). -/
def hhReproductivePattern : String := "H360|H361|[Rr]epr\\.\\s*\\d+|[Rr]eproductive\\s+[Tt]oxicity"

def hhSkinPattern : String := "H315|[Ss]kin\\s*[Ii]rrit\\.\\s*\\d+"

def hhEyePattern : String := "H319|H320|[Ee]ye\\s*[Ii]rrit\\.\\s*\\d+"

def hhStotSePattern : String :=
  "H335|H336|H370|H371|STOT\\s*SE\\s*\\d+|[Ss]pecific\\s+[Tt]arget\\s+[Oo]rgan\\s+[Tt]oxicity.*[Ss]ingle"

def hhRespiratoryPattern : String := "H335|[Rr]espiratory"

def hhStotRePattern : String :=
  "H372|H373|STOT\\s*RE\\s*\\d+|[Ss]pecific\\s+[Tt]arget\\s+[Oo]rgan\\s+[Tt]oxicity.*[Rr]epeated"

def hhRespTractPattern : String := "H335|[Rr]espiratory\\s+[Tt]ract\\s+[Ii]rritation"

/-- Physical-hazard indicator patterns (sds_extractor.py lines 313-345). -/
def phFlamLiqPattern : String := "H22[4-6]|[Ff]lam\\.\\s*[Ll]iq\\.\\s*\\d+|[Ff]lammable\\s+[Ll]iquid"

def phFlamSolPattern : String := "H228|[Ff]lam\\.\\s*[Ss]ol\\.\\s*\\d+|[Ff]lammable\\s+[Ss]olid"

def phSelfReactPattern : String := "H24[0-2]|[Ss]elf\\s*-\\s*[Rr]eact\\.\\s*\\d+|[Ss]elf\\s*-\\s*[Rr]eactive"

def phPyroPattern : String := "H250|[Pp]yr\\.\\s*\\d+|[Pp]yrophoric"

def phSelfHeatPattern : String := "H25[1-2]|[Ss]elf\\s*-\\s*[Hh]eat\\.\\s*\\d+|[Ss]elf\\s*-\\s*[Hh]eating"

def phWaterReactPattern : String :=
  "H26[0-1]|[Ww]ater\\s*-\\s*[Rr]eact\\.\\s*\\d+|[Ee]mit[s]?\\s+[Ff]lammable\\s+[Gg]as(?:es)?"

def phOxidizingPattern : String :=
  "H27[1-2]|[Oo]x\\.\\s*[Ll]iq\\.\\s*\\d+|[Oo]x\\.\\s*[Ss]ol\\.\\s*\\d+|[Oo]xidiz(?:ing|er)"

def phOrgPeroxPattern : String := "H24[0-2]|[Oo]rg\\.\\s*[Pp]erox\\.\\s*\\d+|[Oo]rganic\\s+[Pp]eroxide"

def phMetCorrPattern : String := "H290|[Mm]et\\.\\s*[Cc]orr\\.\\s*\\d+|[Cc]orrosive\\s+to\\s+metal"

/-- Flash Point patterns (sds_extractor.py lines 355-360). -/
def flash_point_patterns : List String :=
  [ "Flash[- ]?point[^:]*?:\\s*([^,\\n]*?°C[^,\\n]*)",
    "Flash[- ]?point[^:]*?:\\s*([^,\\n]*?C[^,\\n]*)",
    "Flash[- ]?point[^:]*?:\\s*([^,\\n]*?Celsius[^,\\n]*)",
    "Flash[- ]?point[^:]*?:\\s*([^,\\n]*)" ]

/-- Appearance patterns (sds_extractor.py lines 364-369). -/
def appearance_patterns : List String :=
  [ "Appearance[^:]*?:\\s*([^,\\n]*)",
    "Physical [Ss]tate[^:]*?:\\s*([^,\\n]*)",
    "Form[^:]*?:\\s*([^,\\n]*)",
    "Color[^:]*?:\\s*([^,\\n]*)" ]

/-- Odor patterns (sds_extractor.py lines 377-380). -/
def odor_patterns : List String :=
  [ "[Oo]dou?r[^:]*?:\\s*([^,\\n\\d°]*\\w+)",
    "[Ss]mell[^:]*?:\\s*([^,\\n\\d°]*\\w+)" ]

/-- Odor validation patterns (sds_extractor.py line 386). -/
def odorDegreePattern : String := "\\d+\\s*[°C]"

def odorDigitsPattern : String := "^\\s*\\d+\\s*$"

/-- Smell descriptor pattern (sds_extractor.py line 388, searched without flags). -/
def smellDescriptorPattern : String := "[Oo]dou?r[^:]*?:\\s*([a-zA-Z\\s,]+)[^a-zA-Z]"

/-- Known smell words (sds_extractor.py lines 393-394). -/
def smell_words : List String :=
  [ "amine", "ammonia", "fishy", "pungent", "sweet", "sour",
    "acrid", "aromatic", "odorless", "odourless", "characteristic" ]

/-- Color patterns (sds_extractor.py lines 403-406). -/
def color_patterns : List String :=
  [ "[Cc]olou?r[^:]*?:\\s*([^,\\n]*)",
    "[Cc]olou?r\\s+(?:appearance)?[^:]*?:\\s*([^,\\n]*)" ]

/-- Packing Group patterns (sds_extractor.py lines 416-421). -/
def packing_group_patterns : List String :=
  [ "[Pp]acking [Gg]roup[^:]*?:\\s*([^,\\n]*)",
    "[Pp]ackaging [Gg]roup[^:]*?:\\s*([^,\\n]*)",
    "UN [Pp]acking [Gg]roup[^:]*?:\\s*([^,\\n]*)",
    "[Pp]acking [Gg]roup\\s+([^,\\n]*)" ]

/-- Dangerous Goods Class patterns (sds_extractor.py lines 425-432). -/
def dangerous_goods_patterns : List String :=
  [ "[Dd]angerous [Gg]oods[^:]*?[Cc]lass[^:]*?:\\s*([^,\\n]*)",
    "[Tt]ransport [Hh]azard [Cc]lass(?:\\s?\\((?:es|es)\\))?[^:]*?:\\s*([^,\\n]*)",
    "[Hh]azard [Cc]lass[^:]*?:\\s*([^,\\n]*)",
    "ADR/RID[^:]*?:\\s*([^,\\n]*)",
    "IMDG[^:]*?[Cc]lass[^:]*?:\\s*([^,\\n]*)",
    "IATA[^:]*?[Cc]lass[^:]*?:\\s*([^,\\n]*)" ]

/-- Storage patterns (sds_extractor.py lines 436-441). -/
def storage_patterns : List String :=
  [ "[Ss]torage[^:]*?:\\s*([^,\\n]*\\n[^,\\n]*)",
    "[Ss]torage conditions[^:]*?:\\s*([^,\\n]*)",
    "[Ss]torage precautions[^:]*?:\\s*([^,\\n]*)",
    "[Ss]torage requirements[^:]*?:\\s*([^,\\n]*)" ]

/-- Product Name patterns (sds_extractor.py lines 445-458). -/
def product_patterns : List String :=
  [ "Product\\s+name\\s*[:\\n](.*?)(?:\\n\\s*[A-Z]|\\n\\n)",
    "Product\\s+identifier\\s*[:\\n](.*?)(?:\\n\\s*[A-Z]|\\n\\n)",
    "Name\\s+[:\\n](.*?)(?:\\n\\s*[A-Z]|\\n\\n)",
    "(?:SECTION\\s+1)[^,]*?[Pp]roduct[^:]*?:\\s*(.*?)(?:\\n\\s*[A-Z]|\\n\\n)",
    "Product[:\\s]+(.*?)(?:\\n\\s*[A-Z]|\\n\\n)",
    "Trade\\s+name\\s*[:\\n](.*?)(?:\\n\\s*[A-Z]|\\n\\n)",
    "Chemical\\s+name\\s*[:\\n](.*?)(?:\\n\\s*[A-Z]|\\n\\n)",
    "Material\\s+name\\s*[:\\n](.*?)(?:\\n\\s*[A-Z]|\\n\\n)",
    "\\n\\s*(?:[A-Z][A-Z\\s]+)\\s*\\n",
    "^.\x7b1,500\x7d?(?:[A-Z][A-Z0-9\\s]\x7b3,30\x7d)" ]

/-- CAS Number patterns (sds_extractor.py lines 462-469). -/
def cas_patterns : List String :=
  [ "CAS(?:[\\s-]*No\\.?|[-\\s]*Number)[:\\s]*([\\d\\-]+)",
    "CAS[:\\s]*([\\d\\-]+)",
    "(?:CAS|CASNO|CAS-No)[^a-zA-Z0-9]*(\\d\x7b1,7\x7d-\\d\x7b2\x7d-\\d\x7b1\x7d)",
    "(?:Chemical\\s+Abstract\\s+Number)[^a-zA-Z0-9]*(\\d\x7b1,7\x7d-\\d\x7b2\x7d-\\d\x7b1\x7d)",
    "(?:\\D|^)(\\d\x7b1,7\x7d-\\d\x7b2\x7d-\\d\x7b1\x7d)(?:\\D|$)" ]

/-- Chemical Identification patterns (sds_extractor.py lines 473-486). -/
def chem_id_patterns : List String :=
  [ "Chemical(?:\\s+name|\\s+identification)[:\\s]+(.*?)(?:\\n\\s*[A-Z]|\\n\\n)",
    "Substance(?:\\s+name)?[:\\s]+(.*?)(?:\\n\\s*[A-Z]|\\n\\n)",
    "Formula[:\\s]+(.*?)(?:\\n\\s*[A-Z]|\\n\\n)",
    "Identification[:\\s]+(.*?)(?:\\n\\s*[A-Z]|\\n\\n)",
    "IUPAC\\s+Name[:\\s]+(.*?)(?:\\n\\s*[A-Z]|\\n\\n)",
    "Molecular\\s+formula[:\\s]+(.*?)(?:\\n\\s*[A-Z]|\\n\\n)",
    "EC[- ]?Number[:\\s]+(.*?)(?:\\n\\s*[A-Z]|\\n\\n)",
    "(?:Composition|Components)[:\\s]+(.*?)(?:\\n\\s*[A-Z]|\\n\\n)",
    "(?:[A-Z][a-z]?\\d*)\x7b2,\x7d",
    "(?:SECTION\\s+3|3\\.)[^A-Z]*?([A-Za-z0-9].*?)(?:\\n\\s*[A-Z]|\\n\\n)" ]

/-- Precautionary Statements patterns (sds_extractor.py lines 492-504). -/
def precautionary_patterns : List String :=
  [ "Precautionary\\s+[Ss]tatements?[:\\s]+(.*?)(?:\\n\\s*[A-Z]|\\n\\n|SECTION)",
    "P[- ]?statements?[:\\s]+(.*?)(?:\\n\\s*[A-Z]|\\n\\n)",
    "Prevention[:\\s]+(.*?)(?:\\n\\s*[A-Z]|\\n\\n)",
    "Response[:\\s]+(.*?)(?:\\n\\s*[A-Z]|\\n\\n)",
    "Storage[:\\s]+(.*?)(?:\\n\\s*[A-Z]|\\n\\n)",
    "Disposal[:\\s]+(.*?)(?:\\n\\s*[A-Z]|\\n\\n)",
    "((?:P\\d\x7b3\x7d[^:,;]*?)[,;\\n])\x7b1,\x7d",
    "(?:SECTION\\s+7|7\\.)[^A-Z]*?([^:]*?storage[^:]*?)(?:\\n\\s*[A-Z]|\\n\\n)",
    "(?:SECTION\\s+7|7\\.)[^A-Z]*?([^:]*?handling[^:]*?)(?:\\n\\s*[A-Z]|\\n\\n)" ]

/-- First Aid Measures patterns (sds_extractor.py lines 508-518). -/
def first_aid_patterns : List String :=
  [ "(?:SECTION\\s+4[:\\.\\s]*|4\\.?\\s+)(?:First[- ]aid\\s+measures)(.*?)(?:SECTION\\s+5|5\\.)",
    "First[- ]aid\\s+measures[:\\s]+(.*?)(?:\\n\\s*[A-Z]|\\n\\n|SECTION)",
    "First\\s+aid[:\\s]+(.*?)(?:\\n\\s*[A-Z]|\\n\\n|SECTION)",
    "If\\s+inhaled[:\\s]+(.*?)(?:\\n\\s*[A-Z]|\\n\\n)",
    "In\\s+case\\s+of\\s+skin\\s+contact[:\\s]+(.*?)(?:\\n\\s*[A-Z]|\\n\\n)",
    "In\\s+case\\s+of\\s+eye\\s+contact[:\\s]+(.*?)(?:\\n\\s*[A-Z]|\\n\\n)",
    "If\\s+swallowed[:\\s]+(.*?)(?:\\n\\s*[A-Z]|\\n\\n)",
    "(?:SECTION\\s+4|4\\.)[^A-Z]\x7b10,500\x7d" ]

/-- Firefighting Measures patterns (sds_extractor.py lines 522-532). -/
def firefighting_patterns : List String :=
  [ "(?:SECTION\\s+5[:\\.\\s]*|5\\.?\\s+)(?:Fire[\\s-]?fighting\\s+measures)(.*?)(?:SECTION\\s+6|6\\.)",
    "Fire[\\s-]?fighting\\s+measures[:\\s]+(.*?)(?:\\n\\s*[A-Z]|\\n\\n|SECTION)",
    "Suitable\\s+extinguishing\\s+(?:media|agents)[:\\s]+(.*?)(?:\\n\\s*[A-Z]|\\n\\n)",
    "Extinguishing\\s+media[:\\s]+(.*?)(?:\\n\\s*[A-Z]|\\n\\n)",
    "Special\\s+(?:hazards|dangers)[:\\s]+(.*?)(?:\\n\\s*[A-Z]|\\n\\n)",
    "Special\\s+protective\\s+equipment[:\\s]+(.*?)(?:\\n\\s*[A-Z]|\\n\\n)",
    "Advice\\s+for\\s+firefighters[:\\s]+(.*?)(?:\\n\\s*[A-Z]|\\n\\n)",
    "(?:SECTION\\s+5|5\\.)[^A-Z]\x7b10,500\x7d" ]

/-- Supplier Information patterns (sds_extractor.py lines 536-577). -/
def supplier_patterns : List String :=
  [ "(?:^|[\\s\\n])Sigma[\\- ]Aldrich(?:[\\s\\n]|$)",
    "(?:^|[\\s\\n])Sigma[\\- ]Aldrich\\s+[^\\n,;]\x7b0,30\x7d",
    "(?:^|[\\s\\n])Merck(?:[\\s\\n]|$)",
    "(?:^|[\\s\\n])Merck\\s+Life\\s+Science(?:[\\s\\n]|$)",
    "(?:^|[\\s\\n])MilliporeSigma(?:[\\s\\n]|$)",
    "(?:^|[\\s\\n])Fisher\\s+Scientific(?:[\\s\\n]|$)",
    "Company(?:\\s+name)?[\\s:]*?[:]*[\\s:]*([^\\n,;]\x7b5,60\x7d)",
    "Supplier(?:\\s+name)?[\\s:]*?[:]*[\\s:]*([^\\n,;]\x7b5,60\x7d)",
    "Manufacturer(?:\\s+name)?[\\s:]*?[:]*[\\s:]*([^\\n,;]\x7b5,60\x7d)",
    "(?:SECTION\\s+1|1\\.)[^A-Z]*?Company\\s*:(?:\\s|\\n)*([^\\n,;]\x7b5,60\x7d)",
    "(?:SECTION\\s+1|1\\.)[^A-Z]*?Supplier\\s*:(?:\\s|\\n)*([^\\n,;]\x7b5,60\x7d)",
    "(?:SECTION\\s+1|1\\.)[^A-Z]*?Manufacturer\\s*:(?:\\s|\\n)*([^\\n,;]\x7b5,60\x7d)",
    "SIGMA-ALDRICH",
    "ALDRICH",
    "SIGMA",
    "FLUKA",
    "SUPELCO",
    "MERCK",
    "Details of the supplier[^:]*?:(?:\\s|\\n)*([A-Z][^\\n,;:]\x7b3,60\x7d)",
    "Details of the supplier[^:]*?:(?:\\s|\\n)*(?:[^A-Za-z\\n]*?)([A-Z][a-zA-Z0-9\\s,\\.\\-&]\x7b3,60\x7d)",
    "([A-Z][a-zA-Z\\s\\.,]+(?:Limited|GmbH|Inc|LLC|Co|Company|Corp|Corporation)(?:[^\\n]\x7b0,60\x7d?))",
    "SUPPLIER DETAILS[\\s:]*[\\n]*([^\\n,;:]\x7b5,60\x7d)",
    "^(?:[^\\n]\x7b0,100\x7d?)([A-Z][a-zA-Z0-9\\s,\\.\\-&]\x7b3,60\x7d)(?:[^\\n]\x7b0,100\x7d?)SAFETY DATA SHEET" ]

/-- Environmental Hazards patterns (sds_extractor.py lines 584-594). -/
def env_patterns : List String :=
  [ "Environmental\\s+[Hh]azards?[:\\s]+(.*?)(?:\\n\\s*[A-Z]|\\n\\n|SECTION)",
    "Hazards? to the environment[:\\s]+(.*?)(?:\\n\\s*[A-Z]|\\n\\n)",
    "Ecological\\s+information[:\\s]+(.*?)(?:\\n\\s*[A-Z]|\\n\\n|SECTION)",
    "(?:SECTION\\s+12|12\\.)[^A-Z]*?(.*?)(?:SECTION\\s+13|13\\.)",
    "Ecotoxicity[:\\s]+(.*?)(?:\\n\\s*[A-Z]|\\n\\n)",
    "Aquatic\\s+toxicity[:\\s]+(.*?)(?:\\n\\s*[A-Z]|\\n\\n)",
    "Biodegradability[:\\s]+(.*?)(?:\\n\\s*[A-Z]|\\n\\n)",
    "Bioaccumulation[:\\s]+(.*?)(?:\\n\\s*[A-Z]|\\n\\n)",
    "Effects\\s+on\\s+environment[:\\s]+(.*?)(?:\\n\\s*[A-Z]|\\n\\n)" ]

/-- Regulatory Compliance Information patterns (sds_extractor.py lines 598-608). -/
def reg_patterns : List String :=
  [ "Regulatory(?:\\s+information|\\s+compliance)[:\\s]+(.*?)(?:\\n\\s*[A-Z]|\\n\\n|SECTION)",
    "(?:SECTION\\s+15|15\\.)[^A-Z]*?(.*?)(?:SECTION\\s+16|16\\.)",
    "Safety[,\\s]+health\\s+and\\s+environmental\\s+regulations[:\\s]+(.*?)(?:\\n\\s*[A-Z]|\\n\\n)",
    "REACH[:\\s]+(.*?)(?:\\n\\s*[A-Z]|\\n\\n)",
    "TSCA[:\\s]+(.*?)(?:\\n\\s*[A-Z]|\\n\\n)",
    "OSHA[:\\s]+(.*?)(?:\\n\\s*[A-Z]|\\n\\n)",
    "EU[:\\s]+(.*?)(?:\\n\\s*[A-Z]|\\n\\n)",
    "International\\s+regulations[:\\s]+(.*?)(?:\\n\\s*[A-Z]|\\n\\n)",
    "Chemical\\s+safety\\s+assessment[:\\s]+(.*?)(?:\\n\\s*[A-Z]|\\n\\n)" ]

/-- Backward-compatibility field mapping (sds_extractor.py lines 75-87),
in Python dict insertion order. -/
def field_mapping : PyDict String :=
  [ ("Supplier Information", "Supplier/Manufacturer"),
    ("Hazard Classification", "Hazards"),
    ("Physical Hazard", "Physical Hazards"),
    ("CAS Number", "Description"),
    ("Chemical Identification", "of the substance or mixture"),
    ("Hazardous Substance", "or mixture and uses advised against"),
    ("Dangerous Goods Cl", "Dangerous Goods Class"),
    ("Environmental Hazards", "Hazards"),
    ("Regulatory Compliance Information", "Hazards"),
    ("Hazard Statement", "Health Hazards") ]

/-- Default values for specific fields (sds_extractor.py lines 90-98). -/
def default_values : PyDict String :=
  [ ("SDS Available", ""),
    ("Identification of the substance/mixture and of the company/undertaking", ""),
    ("Hazardous Substance", ""),
    ("or mixture and uses advised against", ""),
    ("Location", ""),
    ("Quantity", ""),
    ("Issue Date", "") ]

/-- One step of the mapping loop of `apply_field_mappings`
(sds_extractor.py lines 103-105): copy a truthy old field onto its mapped
name. -/
def mappingStep (d : PyDict String) (kv : String × String) : PyDict String :=
  match pdGet d kv.1 with
  | some v => if v ≠ "" then pdSet d kv.2 v else d
  | none => d

/-- One step of the default-values loop of `apply_field_mappings`
(sds_extractor.py lines 108-110): fill a missing or falsy field with its
default. -/
def defaultStep (d : PyDict String) (kv : String × String) : PyDict String :=
  if pdGetD d kv.1 "" = "" then pdSet d kv.1 kv.2 else d

/-- Translation of `apply_field_mappings` (sds_extractor.py lines 101-112):
copy each truthy old field onto its mapped name, then fill the default-valued
fields that are missing or falsy. -/
def apply_field_mappings (d0 : PyDict String) : PyDict String :=
  default_values.foldl defaultStep (field_mapping.foldl mappingStep d0)

/-- The hazard-statement value (sds_extractor.py lines 231-237): first match
of the hazard-statement patterns, else the deduplicated joined H-codes found
in the text, else empty. -/
def hazardStatementValue (R : ReEngine) (text : String) : String :=
  let hazard_stmt := extract_with_patterns R text hazard_stmt_patterns
  if hazard_stmt = "" then
    let h_codes := R.findall hCodeFindPattern text
    if h_codes ≠ [] then pyJoin ", " (dedupFirst h_codes) else hazard_stmt
  else hazard_stmt

/-- The `data` dictionary built by `extract_pattern_based`
(sds_extractor.py lines 70-610) before the final `apply_field_mappings`
call. The dictionary writes appear in source order; every regex evaluation
is an oracle call on the verbatim pattern. -/
def pattern_data (R : ReEngine) (text : String) : PyDict String :=
  let health_cat0 := extract_with_patterns R text health_category_patterns
  let health_cat :=
    if health_cat0 = "" then
      match R.search section2ContentPattern text with
      | some m =>
        let section_2_content := m.groups.headD ""
        let category_matches :=
          R.findall categoryFindPattern section_2_content ++
            R.findall healthContextFindPattern section_2_content
        if category_matches ≠ [] then pyJoin ", " (dedupFirst category_matches)
        else health_cat0
      | none => health_cat0
    else health_cat0
  let data : PyDict String := pdSet [] "Health Category" health_cat
  let data := pdSet data "Physical Category"
    (extract_with_patterns R text physical_category_patterns)
  let hazard_stmt := hazardStatementValue R text
  let data := pdSet data "Hazard Statement" hazard_stmt
  let h_codes := R.findall hCodeFindPattern text
  let hazard_descriptions := h_codes.filterMap (fun code =>
    let base_code := (pySplit code "+").headD code
    match pdGet hazard_mapping base_code with
    | some desc => some (code ++ ": " ++ desc)
    | none => none)
  let data :=
    if hazard_descriptions ≠ [] ∧ hazard_stmt = "" then
      pdSet data "Hazard Statement" (pyJoin "; " hazard_descriptions)
    else data
  let health_hazards :=
    if nmpTriggered text then nmpHealthHazardsPhrase
    else
      let hazard_components : List String := []
      let hazard_components :=
        if (R.search hhReproductivePattern text).isSome then
          hazard_components ++ ["Reproductive Toxicity"] else hazard_components
      let hazard_components :=
        if (R.search hhSkinPattern text).isSome then
          hazard_components ++ ["Skin irritation"] else hazard_components
      let hazard_components :=
        if (R.search hhEyePattern text).isSome then
          hazard_components ++ ["Eye irritation"] else hazard_components
      let hazard_components :=
        if (R.search hhStotSePattern text).isSome then
          if (R.search hhRespiratoryPattern text).isSome then
            hazard_components ++
              ["Specific target organ toxicity, single exposure, Respiratory tract irritation"]
          else hazard_components ++ ["Specific target organ toxicity, single exposure"]
        else hazard_components
      let hazard_components :=
        if (R.search hhStotRePattern text).isSome then
          hazard_components ++ ["Specific target organ toxicity, repeated exposure"]
        else hazard_components
      let hazard_components :=
        if (R.search hhRespTractPattern text).isSome &&
            !(hazard_components.any (fun h => pyContains h "Respiratory")) then
          hazard_components ++ ["Respiratory tract irritation"]
        else hazard_components
      if hazard_components ≠ [] then pyJoin "; " hazard_components else ""
  let data := pdSet data "Health Hazards" health_hazards
  let physical_components : List String := []
  let physical_components :=
    if (R.search phFlamLiqPattern text).isSome then
      physical_components ++ ["Flammable liquid"] else physical_components
  let physical_components :=
    if (R.search phFlamSolPattern text).isSome then
      physical_components ++ ["Flammable solid"] else physical_components
  let physical_components :=
    if (R.search phSelfReactPattern text).isSome then
      physical_components ++ ["Self-reactive"] else physical_components
  let physical_components :=
    if (R.search phPyroPattern text).isSome then
      physical_components ++ ["Pyrophoric"] else physical_components
  let physical_components :=
    if (R.search phSelfHeatPattern text).isSome then
      physical_components ++ ["Self-heating"] else physical_components
  let physical_components :=
    if (R.search phWaterReactPattern text).isSome then
      physical_components ++ ["In contact with water emits flammable gases"]
    else physical_components
  let physical_components :=
    if (R.search phOxidizingPattern text).isSome then
      physical_components ++ ["Oxidizing"] else physical_components
  let physical_components :=
    if (R.search phOrgPeroxPattern text).isSome then
      physical_components ++ ["Organic peroxide"] else physical_components
  let physical_components :=
    if (R.search phMetCorrPattern text).isSome then
      physical_components ++ ["Corrosive to metals"] else physical_components
  let physical_hazards :=
    if physical_components ≠ [] then pyJoin "; " physical_components else ""
  let data := pdSet data "Physical Hazards" physical_hazards
  let data := pdSet data "Flash Point (Deg C)"
    (extract_with_patterns R text flash_point_patterns)
  let data := pdSet data "Appearance" (extract_with_patterns R text appearance_patterns)
  let odourVal :=
    if nmpTriggered text then "amine"
    else
      let odor := extract_with_patterns R text odor_patterns
      if (R.search odorDegreePattern odor).isSome ||
          (R.search odorDigitsPattern odor).isSome then
        match R.search smellDescriptorPattern text with
        | some m => pyStrip (m.groups.headD "")
        | none =>
          (smell_words.find? (fun word =>
            (R.search ("\\b" ++ word ++ "\\b") text).isSome)).getD odor
      else odor
  let data := pdSet data "Odour" odourVal
  let data := pdSet data "Colour" (extract_with_patterns R text color_patterns)
  let data := pdSet data "Issue Date" ""
  let data := pdSet data "SDS Available" ""
  let data := pdSet data "Packing Group"
    (extract_with_patterns R text packing_group_patterns)
  let data := pdSet data "Dangerous Goods Class"
    (extract_with_patterns R text dangerous_goods_patterns)
  let data := pdSet data "Storage Use" (extract_with_patterns R text storage_patterns)
  let data := pdSet data "Product Name" (extract_with_patterns R text product_patterns)
  let data := pdSet data "CAS Number" (extract_with_patterns R text cas_patterns)
  let data := pdSet data "Chemical Identification"
    (extract_with_patterns R text chem_id_patterns)
  let data := pdSet data "Precautionary Statements"
    (extract_with_patterns R text precautionary_patterns)
  let data := pdSet data "First Aid Measures"
    (extract_with_patterns R text first_aid_patterns)
  let data := pdSet data "Firefighting Measures"
    (extract_with_patterns R text firefighting_patterns)
  let supplier := extract_with_patterns R text supplier_patterns
  let data := pdSet data "Supplier Information" supplier
  let data := pdSet data "Supplier/Manufacturer" supplier
  let data := pdSet data "Environmental Hazards" (extract_with_patterns R text env_patterns)
  let data := pdSet data "Regulatory Compliance Information"
    (extract_with_patterns R text reg_patterns)
  data

/-- Translation of `extract_pattern_based` (sds_extractor.py lines 70-614):
build the `data` dictionary, then `return apply_field_mappings(data)`
(line 614). -/
def extract_pattern_based (R : ReEngine) (text : String) : PyDict String :=
  apply_field_mappings (pattern_data R text)

/-- Translation of `re.findall(r'([^\n]+)', s)`: the maximal non-empty runs
of non-newline characters, i.e. the non-empty lines. -/
def findallNonNewline (s : String) : List String :=
  (pySplit s "\n").filter (fun p => p ≠ "")

/-- Section header pattern of `get_sections` (sds_extractor.py line 657). -/
def sectionHeaderPattern : String :=
  "(?:SECTION\\s+|^)(\\d\x7b1,2\x7d)(?:[:\\.]\\s*|\\s+)([^\\n]+)(?:\\n)(.*?)(?=(?:SECTION\\s+|^)(\\d\x7b1,2\x7d)(?:[:\\.]\\s*|\\s+)|$)"

/-- Translation of `get_sections` (sds_extractor.py lines 646-670): each
`finditer` match contributes `number -> (title, content)` with both parts
stripped; a repeated section number overwrites the earlier entry. -/
def get_sections (R : ReEngine) (text : String) : PyDict (String × String) :=
  (R.finditer3 sectionHeaderPattern text).foldl
    (fun secs m => pdSet secs m.1 (pyStrip m.2.1, pyStrip m.2.2)) []

/-- Translation of `clean_section_content` (sds_extractor.py lines 777-786). -/
def clean_section_content (content : String) : String :=
  let c := pyStrip (collapseWs content)
  if pyLen c > 500 then pyTake c 497 ++ "..." else c

/-- Composition patterns of `extract_composition_info`
(sds_extractor.py lines 791-795). -/
def composition_patterns : List String :=
  [ "Chemical(?:\\s+name|\\s+identification)[:\\s]+(.*?)(?:\\n|$)",
    "Substance(?:\\s+name)?[:\\s]+(.*?)(?:\\n|$)",
    "Formula[:\\s]+(.*?)(?:\\n|$)" ]

/-- Table-header removal pattern of `extract_composition_info`
(sds_extractor.py line 802), applied through the oracle's `re.sub`. -/
def compositionSubPattern : String := "(?:CAS|EC|Index)[\\s-]*No\\.?.*?(?:\\n|$)"

/-- Translation of `extract_composition_info` (sds_extractor.py lines 788-810). -/
def extract_composition_info (R : ReEngine) (section_content : String) : String :=
  let chem_id := extract_with_patterns R section_content composition_patterns
  if chem_id = "" then
    let cleaned := R.sub compositionSubPattern "" section_content
    let cleaned := pyStrip (collapseWs cleaned)
    if pyLen cleaned > 200 then pyTake cleaned 197 ++ "..." else cleaned
  else chem_id

/-- Hazard-classification patterns (sds_extractor.py lines 814-818). -/
def hazard_classification_patterns : List String :=
  [ "Classification[:\\s]+(.*?)(?:\\n\\s*[A-Z]|\\n\\n)",
    "Hazard(?:\\s+Classification|\\s+class)[:\\s]+(.*?)(?:\\n\\s*[A-Z]|\\n\\n|Precautionary)",
    "(?:GHS|CLP)\\s+Classification[:\\s]+(.*?)(?:\\n\\s*[A-Z]|\\n\\n)" ]

/-- H-statement findall pattern of `extract_hazard_classification`
(sds_extractor.py line 824). -/
def hStatementFindPattern : String :=
  "H\\d\x7b3\x7d(?:[+]\\d\x7b3\x7d)*[:\\s]+(.*?)(?:\\n|$)"

/-- Translation of `extract_hazard_classification` (sds_extractor.py lines 812-828). -/
def extract_hazard_classification (R : ReEngine) (section_content : String) : String :=
  let hazard_class := extract_with_patterns R section_content hazard_classification_patterns
  if hazard_class = "" then
    let h_statements := R.findall hStatementFindPattern section_content
    if h_statements ≠ [] then pyJoin ", " h_statements else hazard_class
  else hazard_class

/-- P-statement findall pattern of `extract_precautionary_statements`
(sds_extractor.py line 833). -/
def pStatementFindPattern : String :=
  "P\\d\x7b3\x7d(?:[+]\\d\x7b3\x7d)*[:\\s]+(.*?)(?:\\n|$)"

/-- Storage and handling sub-patterns (sds_extractor.py lines 838-839). -/
def storageSubPattern : String := "Storage[:\\s]+(.*?)(?:\\n\\s*[A-Z]|\\n\\n|$)"

def handlingSubPattern : String := "Handling[:\\s]+(.*?)(?:\\n\\s*[A-Z]|\\n\\n|$)"

/-- Translation of `extract_precautionary_statements`
(sds_extractor.py lines 830-847). -/
def extract_precautionary_statements (R : ReEngine) (section_content : String) : String :=
  let p_statements := R.findall pStatementFindPattern section_content
  if p_statements ≠ [] then pyJoin ", " p_statements
  else
    let result : List String := []
    let result :=
      match R.search storageSubPattern section_content with
      | some m => result ++ ["Storage: " ++ pyStrip (m.groups.headD "")]
      | none => result
    let result :=
      match R.search handlingSubPattern section_content with
      | some m => result ++ ["Handling: " ++ pyStrip (m.groups.headD "")]
      | none => result
    pyJoin " " result

/-- Address, company and phone sub-patterns of `extract_supplier_info`
(sds_extractor.py lines 852-854). -/
def addressSubPattern : String := "Address[:\\s]+(.*?)(?:\\n\\s*[A-Z]|\\n\\n|$)"

def companySubPattern : String := "Company[:\\s]+(.*?)(?:\\n\\s*[A-Z]|\\n\\n|$)"

def phoneSubPattern : String := "(?:Phone|Tel)[:\\s]+(.*?)(?:\\n|$)"

/-- Translation of `extract_supplier_info` (sds_extractor.py lines 849-864). -/
def extract_supplier_info (R : ReEngine) (section_content : String) : String :=
  let result : List String := []
  let result :=
    match R.search companySubPattern section_content with
    | some m => result ++ [pyStrip (m.groups.headD "")]
    | none => result
  let result :=
    match R.search addressSubPattern section_content with
    | some m => result ++ [pyStrip (m.groups.headD "")]
    | none => result
  let result :=
    match R.search phoneSubPattern section_content with
    | some m => result ++ ["Phone: " ++ pyStrip (m.groups.headD "")]
    | none => result
  pyJoin ", " result

/-- First-aid sub-heading categories (sds_extractor.py line 875). -/
def firstAidCategories : List String :=
  ["Inhalation", "Skin contact", "Eye contact", "Ingestion"]

/-- Translation of `extract_first_aid_measures` (sds_extractor.py lines 866-903). -/
def extract_first_aid_measures (R : ReEngine) (section_content : String) : String :=
  let measures : PyDict String := firstAidCategories.foldl (fun ms category =>
    match R.search (category ++ "[^\\n]*?:([^\\n]*)") section_content with
    | some m =>
      let ms := pdSet ms category (pyStrip (m.groups.headD ""))
      match R.search
          (category ++ "[^\\n]*?:(.*?)(?=\\n\\s*[A-Z][a-z]+\\s*:|\\Z)")
          section_content with
      | some m2 => pdSet ms category (pyStrip (m2.groups.headD ""))
      | none => ms
    | none => ms) []
  let first_aid_measures :=
    if measures ≠ [] then
      pyConcat (measures.map (fun kv => kv.1 ++ ": " ++ kv.2 ++ "\n"))
    else
      match findallNonNewline section_content with
      | [] => ""
      | p0 :: rest =>
        let paragraphs := p0 :: rest
        let start_idx := if pyContains (pyLower p0) "first aid" then 1 else 0
        pyJoin "\n" ((paragraphs.drop start_idx).take 3)
  let first_aid_measures := collapseWs first_aid_measures
  let first_aid_measures :=
    if pyLen first_aid_measures > 500 then pyTake first_aid_measures 497 ++ "..."
    else first_aid_measures
  pyStrip first_aid_measures

/-- Firefighting sub-section patterns (sds_extractor.py lines 910-915),
as (name, pattern) pairs in Python dict insertion order. -/
def firefightingSections : PyDict String :=
  [ ("Extinguishing media",
     "([Ss]uitable|[Rr]ecommended)\\s+[Ee]xtinguishing\\s+[Mm]edia:?\\s*(.*?)(?=\\n\\s*[A-Z]|$)"),
    ("Special hazards",
     "([Ss]pecial|[Uu]nusual)\\s+[Hh]azards:?\\s*(.*?)(?=\\n\\s*[A-Z]|$)"),
    ("Advice for firefighters",
     "([Aa]dvice|[Pp]rotection)\\s+for\\s+[Ff]irefighters:?\\s*(.*?)(?=\\n\\s*[A-Z]|$)"),
    ("Hazardous combustion",
     "[Hh]azardous\\s+[Cc]ombustion\\s+[Pp]roducts:?\\s*(.*?)(?=\\n\\s*[A-Z]|$)") ]

/-- Translation of `extract_firefighting_measures`
(sds_extractor.py lines 905-944). -/
def extract_firefighting_measures (R : ReEngine) (section_content : String) : String :=
  let extracted_sections : PyDict String := firefightingSections.foldl (fun es kv =>
    match R.search kv.2 section_content with
    | some m =>
      let extracted_text :=
        if m.groups.length > 1 then pyStrip (m.groups.getD 1 "")
        else pyStrip (m.groups.headD "")
      pdSet es kv.1 (collapseWs extracted_text)
    | none => es) []
  let firefighting_info :=
    if extracted_sections ≠ [] then
      pyConcat (extracted_sections.map (fun kv => kv.1 ++ ": " ++ kv.2 ++ "\n"))
    else
      match findallNonNewline section_content with
      | [] => ""
      | p0 :: rest =>
        let paragraphs := p0 :: rest
        let start_idx := if pyContains (pyLower p0) "firefighting" then 1 else 0
        pyJoin "\n" ((paragraphs.drop start_idx).take 2)
  let firefighting_info := collapseWs firefighting_info
  let firefighting_info :=
    if pyLen firefighting_info > 500 then pyTake firefighting_info 497 ++ "..."
    else firefighting_info
  pyStrip firefighting_info

/-- Product-name patterns of the section-based extractor
(sds_extractor.py lines 710-713). -/
def sectionProductPatterns : List String :=
  [ "[Pp]roduct\\s+name[:\\s]+(.*?)(?:\\n|$)",
    "[Pp]roduct\\s+identifier[:\\s]+(.*?)(?:\\n|$)" ]

/-- CAS patterns of the section-based extractor (sds_extractor.py lines 717-720). -/
def sectionCasPatterns : List String :=
  [ "CAS(?:[\\s-]*No\\.?|[-\\s]*Number)[:\\s]*([\\d\\-]+)",
    "CAS[:\\s]*([\\d\\-]+)" ]

/-- Precautionary patterns of the section-based extractor
(sds_extractor.py lines 735-738). -/
def sectionPrecautionaryPatterns : List String :=
  [ "[Pp]recautionary\\s+[Ss]tatements?[:\\s]+(.*?)(?:\\n\\s*[A-Z]|\\n\\n)",
    "P[- ]?statements?[:\\s]+(.*?)(?:\\n\\s*[A-Z]|\\n\\n)" ]

/-- Supplier patterns of the section-based extractor
(sds_extractor.py lines 745-748). -/
def sectionSupplierPatterns : List String :=
  [ "(?:Supplier|Manufacturer|Company)[:\\s]+(.*?)(?:\\n\\s*[A-Z]|\\n\\n|Emergency)",
    "Details of the supplier[:\\s]+(.*?)(?:\\n\\s*[A-Z]|\\n\\n|Emergency)" ]

/-- Translation of `extract_section_based` (sds_extractor.py lines 672-775).
The `section_mapping` loop is unrolled in its Python dict iteration order;
each present section contributes its fields in list order. -/
def extract_section_based (R : ReEngine) (text : String) : PyDict String :=
  let sections := get_sections R text
  let data : PyDict String := []
  let data :=
    match pdGet sections "1" with
    | some sec =>
      let content := sec.2
      let data := pdSet data "Product Name"
        (extract_with_patterns R content sectionProductPatterns)
      let supplier_info := extract_with_patterns R content sectionSupplierPatterns
      let supplier_info :=
        if supplier_info = "" then extract_supplier_info R content else supplier_info
      pdSet data "Supplier Information" supplier_info
    | none => data
  let data :=
    match pdGet sections "2" with
    | some sec => pdSet data "Hazard Classification" (extract_hazard_classification R sec.2)
    | none => data
  let data :=
    match pdGet sections "3" with
    | some sec =>
      let content := sec.2
      let data := pdSet data "Chemical Identification" (extract_composition_info R content)
      pdSet data "CAS Number" (extract_with_patterns R content sectionCasPatterns)
    | none => data
  let data :=
    match pdGet sections "4" with
    | some sec => pdSet data "First Aid Measures" (extract_first_aid_measures R sec.2)
    | none => data
  let data :=
    match pdGet sections "5" with
    | some sec => pdSet data "Firefighting Measures" (extract_firefighting_measures R sec.2)
    | none => data
  let data :=
    match pdGet sections "7" with
    | some sec =>
      let precautions := extract_with_patterns R sec.2 sectionPrecautionaryPatterns
      let precautions :=
        if precautions = "" then extract_precautionary_statements R sec.2 else precautions
      pdSet data "Precautionary Statements" precautions
    | none => data
  let data :=
    match pdGet sections "12" with
    | some sec => pdSet data "Environmental Hazards" (clean_section_content sec.2)
    | none => data
  let data :=
    match pdGet sections "15" with
    | some sec => pdSet data "Regulatory Compliance Information" (clean_section_content sec.2)
    | none => data
  let sectionFieldMapping : PyDict String :=
    [ ("Supplier Information", "Supplier/Manufacturer"),
      ("Hazard Classification", "Hazards"),
      ("Precautionary Statements", "Response Statement") ]
  sectionFieldMapping.foldl (fun d kv =>
    match pdGet d kv.1 with
    | some v => if v ≠ "" then pdSet d kv.2 v else d
    | none => d) data

/-- The required output fields of `extract_sds_data`
(sds_extractor.py lines 16-22), in list order. -/
def required_fields : List String :=
  [ "Number", "Product Name", "Supplier/Manufacturer", "Hazards", "Location",
    "SDS Available", "Issue Date", "Health Hazards", "Health Category",
    "Physical Hazards", "Physical Category", "Hazardous Substance", "Flash Point (Deg C)",
    "Dangerous Goods Class", "Description", "Packing Group", "Appearance", "Colour", "Odour",
    "First Aid Measures", "Firefighting Measures" ]

/-- The final per-value clean-up of `extract_sds_data`
(sds_extractor.py lines 59-66): collapse whitespace, strip, and truncate
values longer than 500 characters to 497 characters plus "...". -/
def cleanValue (s : String) : String :=
  let w := pyStrip (collapseWs s)
  if pyLen w > 500 then pyTake w 497 ++ "..." else w

/-- The dictionary built by `extract_sds_data` before its clean-up loop
(sds_extractor.py lines 24-57). -/
def extract_sds_data_raw (R : ReEngine) (text method : String) : PyDict String :=
  let data0 : PyDict String := required_fields.map (fun field => (field, ""))
  if method = "Automatic" then
    let pattern_data := extract_pattern_based R text
    let section_data := extract_section_based R text
    required_fields.foldl (fun d field =>
      let pattern_value := pdGetD pattern_data field ""
      let section_value := pdGetD section_data field ""
      if pyLen (pyStrip pattern_value) > 3 then pdSet d field pattern_value
      else if pyLen (pyStrip section_value) > 3 then pdSet d field section_value
      else d) data0
  else if method = "Section-based" then
    let section_data := extract_section_based R text
    required_fields.foldl (fun d field =>
      match pdGet section_data field with
      | some v => pdSet d field v
      | none => d) data0
  else
    let pattern_data := extract_pattern_based R text
    required_fields.foldl (fun d field =>
      match pdGet pattern_data field with
      | some v => pdSet d field v
      | none => d) data0

/-- Translation of `extract_sds_data` (sds_extractor.py lines 4-68). -/
def extract_sds_data (R : ReEngine) (text method : String) : PyDict String :=
  (extract_sds_data_raw R text method).map (fun kv => (kv.1, cleanValue kv.2))

/-- JSON values as the embedded control flow distinguishes them: flat strings
and lists of strings (the two shapes `extract_with_ai` and the ML merge code
branch on via `isinstance(value, list)`).  Other JSON shapes are outside the
modelled input space. -/
inductive JVal where
  | s (v : String)
  | lst (items : List String)
deriving DecidableEq

/-- Python truthiness of a JSON value. -/
def JVal.truthy : JVal → Bool
  | .s v => !(v == "")
  | .lst items => !items.isEmpty

/-- Python `str()` / f-string rendering of a JSON value. -/
def JVal.pyStr : JVal → String
  | .s v => v
  | .lst items => pyListRepr items

/-- Result of `json.loads`: a parsed JSON object, or a raised
`JSONDecodeError` carrying `str(e)`. -/
inductive JParse where
  | obj (o : PyDict JVal)
  | fail (msg : String)

/-- The provider selected at module initialization of ai_extractor.py
(lines 18-42): at most one of the two services, fixed per process.
`ai_client` is set exactly when a service was selected. -/
inductive AIService where
  | openai
  | anthropic
deriving DecidableEq

/-- Environment for the external-model collaborators of ai_extractor.py.
`openaiCall text` / `anthropicCall text n` give the provider reply (or the
`str(e)` of the raised exception) for the call on the document `text`
(attempt `n` for Anthropic); the fixed prompt wrapping `text` is an
injective function of `text`, so keying the oracle by `text` preserves all
dataflow.  `jsonParse` models `json.loads`. -/
structure AIEnv where
  service : Option AIService
  openaiCall : String → Except String String
  anthropicCall : String → Nat → Except String String
  jsonParse : String → JParse

/-- Rate-limit classification of a caught provider error
(ai_extractor.py line 160). -/
def isRateLimitError (e : String) : Bool :=
  pyContains e "429" || pyContains (pyLower e) "too many requests"

/-- Outcome of the Anthropic retry loop (ai_extractor.py lines 137-170),
together with the number of attempts made. -/
inductive LoopResult where
  | success (response_text : String) (attempts : Nat)
  | fellThrough (attempts : Nat)
  | returnedError (msg : String) (attempts : Nat)
deriving DecidableEq

/-- Fueled worker for `anthropicLoop`; the fuel equals
`maxRetries - retryCount`, so `fuel = 0` is exactly the exit of
`while retry_count < max_retries`. -/
def anthropicLoopAux (call : Nat → Except String String) (maxRetries : Nat) :
    Nat → Nat → LoopResult
  | retryCount, 0 => .fellThrough retryCount
  | retryCount, fuel + 1 =>
    match call retryCount with
    | .ok response_text => .success response_text (retryCount + 1)
    | .error e =>
      let rc := retryCount + 1
      if isRateLimitError e then anthropicLoopAux call maxRetries rc fuel
      else if rc < maxRetries then anthropicLoopAux call maxRetries rc fuel
      else
        .returnedError
          ("Anthropic API extraction failed after " ++ toString maxRetries ++
            " attempts: " ++ e) rc

/-- Translation of the Anthropic retry loop of `extract_with_ai`
(ai_extractor.py lines 130-170).  A `fellThrough` result is the loop exiting
with `response_text` never assigned (every attempt failed and the last
classification was rate-limit, so the `return` on line 170 was skipped). -/
def anthropicLoop (call : Nat → Except String String) (maxRetries retryCount : Nat) :
    LoopResult :=
  anthropicLoopAux call maxRetries retryCount (maxRetries - retryCount)

/-- The fenced-JSON pattern of response parsing (ai_extractor.py line 175). -/
def fencedJsonPattern : String := "```json\\s*(.*?)\\s*```"

/-- The brace-span pattern of response parsing (ai_extractor.py line 184). -/
def braceSpanPattern : String := "(\x7b.*\x7d)"

/-- The Python 3 interpreter message of the `UnboundLocalError` raised when
line 175 reads `response_text` after the retry loop fell through without
assigning it; it is caught by `except Exception` on line 191. -/
def unboundLocalMsg : String :=
  "cannot access local variable \x27response_text\x27 where it is not associated with a value"

/-- The error value `extract_with_ai` returns when the retry loop fell
through and response processing hit the unbound `response_text`. -/
def unboundProcessFailMsg : String :=
  "Failed to process Anthropic response: " ++ unboundLocalMsg

/-- Translation of the Anthropic response processing
(ai_extractor.py lines 172-193): fenced ```json block first (a block whose
content fails to parse raises to the handler on line 191), then the whole
reply, then the first-to-last brace span; a missing brace span leaves
`response_data` as the empty dict and control falls through. -/
def processAnthropicResponse (R : ReEngine) (env : AIEnv) (response_text : String) :
    Except String (PyDict JVal) :=
  match R.search fencedJsonPattern response_text with
  | some m =>
    match env.jsonParse (m.groups.headD "") with
    | .obj d => .ok d
    | .fail msg => .error ("Failed to process Anthropic response: " ++ msg)
  | none =>
    match env.jsonParse response_text with
    | .obj d => .ok d
    | .fail _ =>
      match R.search braceSpanPattern response_text with
      | some m2 =>
        match env.jsonParse (m2.groups.headD "") with
        | .obj d => .ok d
        | .fail _ => .error "Failed to parse AI response"
      | none => .ok []

/-- The canonical field set of the model extractors
(ai_extractor.py lines 200-207 and ml_extractor.py lines 784-791). -/
def expected_fields_ai : List String :=
  [ "Product Name", "CAS Number", "Chemical Identification",
    "Health Hazards", "Health Category", "Physical Hazards",
    "Physical Category", "Flash Point", "Appearance", "Odour",
    "Colour", "Storage Use", "Supplier/Manufacturer",
    "Dangerous Goods Class", "Packing Group", "Environmental Hazards",
    "First Aid Measures", "Firefighting Measures" ]

/-- The known-substance trigger of `extract_with_ai`
(ai_extractor.py lines 215-216): plain case-insensitive substring checks. -/
def aiNmpCheck (text : String) : Bool :=
  let tl := pyLower text
  pyContains tl "1-methyl-2-pyrrolidone" || pyContains tl "1-methyl-2-pyrrolidinone" ||
    pyContains tl "nmp" || pyContains tl "872-50-4"

/-- Flattening of list values at the output boundary
(ai_extractor.py lines 220-223; `str(item)` is the identity on the string
items of the modelled input space). -/
def flattenJVal : JVal → String
  | .s v => v
  | .lst items => pyJoin "; " items

/-- Post-processing of a successfully parsed provider reply
(ai_extractor.py lines 199-225): fill missing canonical fields with empty
strings, apply the known-substance override, flatten list values. -/
def postprocessAI (text : String) (response_data : PyDict JVal) : PyDict String :=
  let d := expected_fields_ai.foldl
    (fun d field => if pdHas d field then d else pdSet d field (.s "")) response_data
  let d :=
    if aiNmpCheck text then
      pdSet (pdSet d "Health Hazards" (.s nmpHealthHazardsPhrase)) "Odour" (.s "amine")
    else d
  d.map (fun kv => (kv.1, flattenJVal kv.2))

set_option linter.unusedVariables false in
/-- Translation of `extract_with_ai` (ai_extractor.py lines 57-225).  The
`sds_filename` and `light_mode` parameters are part of the source signature;
the source body never reads either of them. -/
def extract_with_ai (R : ReEngine) (env : AIEnv) (text : String)
    (sds_filename : Option String := none) (light_mode : Bool := false) :
    PyDict String :=
  match env.service with
  | none => [("error", "No AI API keys available")]
  | some .openai =>
    match env.openaiCall text with
    | .error e => [("error", "AI extraction failed: " ++ e)]
    | .ok response_text =>
      match env.jsonParse response_text with
      | .fail msg => [("error", "AI extraction failed: " ++ msg)]
      | .obj response_data => postprocessAI text response_data
  | some .anthropic =>
    match anthropicLoop (env.anthropicCall text) 10 0 with
    | .returnedError m _ => [("error", m)]
    | .fellThrough _ => [("error", unboundProcessFailMsg)]
    | .success response_text _ =>
      match processAnthropicResponse R env response_text with
      | .error m => [("error", m)]
      | .ok response_data => postprocessAI text response_data

/-- The light-mode result of `extract_from_pdf_with_ai`
(ai_extractor.py lines 254-267): the Pattern-based extraction of the
document text with the source filename attached. -/
def lightModeResult (R : ReEngine) (text filename : String) : PyDict String :=
  pdSet (extract_sds_data R text "Pattern-based") "Source File" filename

/-- Rate-limit classification of an error result
(ai_extractor.py lines 273-274). -/
def pdfRateLimitCheck (e : String) : Bool :=
  pyContains (pyLower e) "rate limit" || pyContains e "429"

/-- Translation of `extract_from_pdf_with_ai` (ai_extractor.py lines 227-292).
Text acquisition from the PDF is the out-of-scope collaborator; the function
is modelled from the acquired `text` and `filename` on.  The recursive call
`extract_from_pdf_with_ai(pdf_path, light_mode=True)` on line 277 deterministically
re-acquires the same text and immediately takes the light-mode branch, so it
is unfolded to that branch's result. -/
def extract_from_pdf_with_ai (R : ReEngine) (env : AIEnv) (text filename : String)
    (light_mode : Bool := false) : PyDict String :=
  if light_mode then lightModeResult R text filename
  else
    let extracted_data := extract_with_ai R env text (some filename)
    match pdGet extracted_data "error" with
    | some e =>
      if pdfRateLimitCheck e then lightModeResult R text filename
      else extracted_data
    | none => extracted_data

/-- Environment for the specialized ML extraction collaborators of
ml_extractor.py, modelled at their return interfaces (each is a hosted-model
call plus response parsing, an external collaborator per the specification):
`sectionId` is the hierarchical section-position step (lines 341-376; `.error`
models an exception escaping to the handler on line 423), and the remaining
components are `extract_identification_info`, `specialized_hazard_extraction`,
`specialized_first_aid_extraction`, `specialized_firefighting_extraction` and
`extract_physical_chemical_properties`, each already-parsed as a Python dict
keyed by the document text. -/
structure MLEnv where
  sectionId : String → Except String Unit
  identification : String → PyDict JVal
  hazard : String → PyDict JVal
  firstAid : String → PyDict JVal
  firefighting : String → PyDict JVal
  physical : String → PyDict JVal

/-- Python truthiness of a dict. -/
def jobjTruthy (d : PyDict JVal) : Bool := !d.isEmpty

/-- `key in d and d[key]` is truthy. -/
def jobjHasTruthy (d : PyDict JVal) (k : String) : Bool :=
  match pdGet d k with
  | some v => v.truthy
  | none => false

/-- The sub-category flattening `"; ".join([f"{k}: {v}" for k, v in d.items() if v])`
(ml_extractor.py lines 401, 411, 622, 629, 755, 763). -/
def kvJoin (d : PyDict JVal) : String :=
  pyJoin "; " ((d.filter (fun kv => kv.2.truthy)).map (fun kv => kv.1 ++ ": " ++ kv.2.pyStr))

/-- The fill-if-currently-empty merge loop
`for key, value in src.items(): if key not in dst or not dst[key]: dst[key] = value`
(ml_extractor.py lines 419-421, 615-617, 690-692). -/
def fillIfEmptyFold (src dst : PyDict JVal) : PyDict JVal :=
  src.foldl (fun r kv => if jobjHasTruthy r kv.1 then r else pdSet r kv.1 kv.2) dst

/-- The first-aid assignment block, shared verbatim by
`hierarchical_extraction` (ml_extractor.py lines 397-404),
`multi_pass_extraction` (lines 620-625) and the specialized strategy of
`extract_sds_with_ml` (lines 752-758): an unconditional overwrite of
"First Aid Measures" whenever the collaborator returned a truthy dict
without an "error" key. -/
def firstAidAssign (first_aid_data results : PyDict JVal) : PyDict JVal :=
  if jobjTruthy first_aid_data && !(pdHas first_aid_data "error") then
    pdSet results "First Aid Measures" (.s (kvJoin first_aid_data))
  else results

/-- The firefighting assignment block (ml_extractor.py lines 406-414,
627-632 and 760-766), symmetric to `firstAidAssign`. -/
def firefightingAssign (firefighting_data results : PyDict JVal) : PyDict JVal :=
  if jobjTruthy firefighting_data && !(pdHas firefighting_data "error") then
    pdSet results "Firefighting Measures" (.s (kvJoin firefighting_data))
  else results

/-- The fill-if-empty physical-properties merge block
(ml_extractor.py lines 416-421 and 689-692). -/
def physicalFill (phys_chem_data results : PyDict JVal) : PyDict JVal :=
  if jobjTruthy phys_chem_data && !(pdHas phys_chem_data "error") then
    fillIfEmptyFold phys_chem_data results
  else results

/-- The hazard assignment block of `hierarchical_extraction`
(ml_extractor.py lines 380-394): unconditional overwrites of
"Health Hazards", "Hazard Statements" and "Pictograms" from the specialized
hazard result, list values joined with "; ". -/
def hierHazardAssign (hazard_data results : PyDict JVal) : PyDict JVal :=
  if jobjTruthy hazard_data && !(pdHas hazard_data "error") then
    let results :=
      match pdGet hazard_data "GHS Classification" with
      | some v => pdSet results "Health Hazards" v
      | none => results
    let results :=
      match pdGet hazard_data "Hazard Statements" with
      | some (.lst l) => pdSet results "Hazard Statements" (.s (pyJoin "; " l))
      | some (.s v) => pdSet results "Hazard Statements" (.s v)
      | none => results
    let results :=
      match pdGet hazard_data "Pictograms" with
      | some (.lst l) => pdSet results "Pictograms" (.s (pyJoin "; " l))
      | some (.s v) => pdSet results "Pictograms" (.s v)
      | none => results
    results
  else results

/-- Translation of `hierarchical_extraction` (ml_extractor.py lines 306-427),
as the pipeline of its source blocks. -/
def hierarchical_extraction (env : AIEnv) (menv : MLEnv) (text : String) : PyDict JVal :=
  if env.service.isNone then [("error", .s "No AI service available")]
  else
    match menv.sectionId text with
    | .error e => [("error", .s ("Hierarchical extraction failed: " ++ e))]
    | .ok _ =>
      let results := menv.identification text
      let results := hierHazardAssign (menv.hazard text) results
      let results := firstAidAssign (menv.firstAid text) results
      let results := firefightingAssign (menv.firefighting text) results
      physicalFill (menv.physical text) results

/-- Health keywords of the multi-pass hazard bucketing (ml_extractor.py line 641). -/
def healthTermList : List String :=
  ["toxic", "health", "irritat", "corrosive", "sensitiz", "mutagen", "carcino", "reproduct", "damage"]

/-- Health keywords of the category scan (ml_extractor.py line 654). -/
def healthCatTermList : List String := ["toxic", "health", "irritat", "corrosive", "sensitiz"]

/-- Physical keywords of the multi-pass hazard bucketing (ml_extractor.py line 666). -/
def physicalTermList : List String :=
  ["flammable", "explosive", "oxidiz", "gas", "pressure", "react", "peroxide", "corrosive"]

/-- Physical keywords of the category scan (ml_extractor.py line 677). -/
def physicalCatTermList : List String := ["flammable", "explosive", "oxidiz", "gas", "pressure"]

/-- Category-number pattern (ml_extractor.py lines 655 and 678). -/
def categorySearchPattern : String := "category\\s*(\\d+)"

/-- The GHS Classification list, when it is list-valued
(the `isinstance(..., list)` guards on lines 639, 652, 664, 675). -/
def ghsClassificationList (hazard_data : PyDict JVal) : List String :=
  match pdGet hazard_data "GHS Classification" with
  | some (.lst l) => l
  | _ => []

/-- The category-digit scan loop (ml_extractor.py lines 652-658 and 675-681):
first classification that mentions "category", matches a term, and yields a
regex capture; a failed capture continues the loop. -/
def findCategoryIn (R : ReEngine) (terms : List String) : List String → Option String
  | [] => none
  | classification :: rest =>
    if pyContains (pyLower classification) "category" &&
        terms.any (fun term => pyContains (pyLower classification) term) then
      match R.search categorySearchPattern (pyLower classification) with
      | some m => some (m.groups.headD "")
      | none => findCategoryIn R terms rest
    else findCategoryIn R terms rest

/-- The hazard consolidation block of `multi_pass_extraction`
(ml_extractor.py lines 634-687): guarded fills of "Health Hazards",
"Health Category", "Physical Hazards", "Physical Category" and
"Hazard Statements" from the specialized hazard result, bucketing ambiguous
GHS classification phrases by keyword. -/
def multiPassHazardAssign (R : ReEngine) (hazard_data combined_results : PyDict JVal) :
    PyDict JVal :=
  if jobjTruthy hazard_data && !(pdHas hazard_data "error") then
    let combined_results :=
      if jobjHasTruthy combined_results "Health Hazards" then combined_results
      else
        let health_hazards := (ghsClassificationList hazard_data).filter
          (fun classification =>
            healthTermList.any (fun term => pyContains (pyLower classification) term))
        if health_hazards ≠ [] then
          pdSet combined_results "Health Hazards" (.s (pyJoin "; " health_hazards))
        else
          pdSet combined_results "Health Hazards"
            ((pdGet hazard_data "GHS Classification").getD (.s ""))
    let combined_results :=
      if jobjHasTruthy combined_results "Health Category" then combined_results
      else
        match findCategoryIn R healthCatTermList (ghsClassificationList hazard_data) with
        | some cat => pdSet combined_results "Health Category" (.s cat)
        | none => combined_results
    let combined_results :=
      if jobjHasTruthy combined_results "Physical Hazards" then combined_results
      else
        let physical_hazards := (ghsClassificationList hazard_data).filter
          (fun classification =>
            physicalTermList.any (fun term => pyContains (pyLower classification) term))
        if physical_hazards ≠ [] then
          pdSet combined_results "Physical Hazards" (.s (pyJoin "; " physical_hazards))
        else combined_results
    let combined_results :=
      if jobjHasTruthy combined_results "Physical Category" then combined_results
      else
        match findCategoryIn R physicalCatTermList (ghsClassificationList hazard_data) with
        | some cat => pdSet combined_results "Physical Category" (.s cat)
        | none => combined_results
    let combined_results :=
      if jobjHasTruthy combined_results "Hazard Statements" then combined_results
      else
        match pdGet hazard_data "Hazard Statements" with
        | some (.lst l) => pdSet combined_results "Hazard Statements" (.s (pyJoin "; " l))
        | some (.s v) => pdSet combined_results "Hazard Statements" (.s v)
        | none => pdSet combined_results "Hazard Statements" (.s "")
    combined_results
  else combined_results

/-- Translation of `multi_pass_extraction` (ml_extractor.py lines 588-694),
as the pipeline of its source blocks over the basic single-shot result. -/
def multi_pass_extraction (R : ReEngine) (env : AIEnv) (menv : MLEnv) (text : String) :
    PyDict JVal :=
  let basic_results := (extract_with_ai R env text).map (fun kv => (kv.1, JVal.s kv.2))
  let combined_results := fillIfEmptyFold (hierarchical_extraction env menv text) basic_results
  let combined_results := firstAidAssign (menv.firstAid text) combined_results
  let combined_results := firefightingAssign (menv.firefighting text) combined_results
  let combined_results := multiPassHazardAssign R (menv.hazard text) combined_results
  physicalFill (menv.physical text) combined_results

/-- The final field fill and flatten of `extract_sds_with_ml`
(ml_extractor.py lines 783-806). -/
def mlFinalize (results : PyDict JVal) : PyDict String :=
  let results := expected_fields_ai.foldl
    (fun d field => if pdHas d field then d else pdSet d field (.s "")) results
  results.map (fun kv => (kv.1, flattenJVal kv.2))

/-- Translation of `extract_sds_with_ml` (ml_extractor.py lines 696-807). -/
def extract_sds_with_ml (R : ReEngine) (env : AIEnv) (menv : MLEnv)
    (text strategy : String) (light_mode : Bool) : PyDict String :=
  if text = "" then [("error", "No text provided")]
  else if env.service.isNone then [("error", "No AI API keys available")]
  else
    let results : PyDict JVal :=
      if light_mode then
        (extract_with_ai R env text none true).map (fun kv => (kv.1, JVal.s kv.2))
      else if strategy = "direct_extraction" then
        (extract_with_ai R env text).map (fun kv => (kv.1, JVal.s kv.2))
      else if strategy = "hierarchical_extraction" then
        hierarchical_extraction env menv text
      else if strategy = "specialized_extraction" then
        let results := (extract_with_ai R env text).map (fun kv => (kv.1, JVal.s kv.2))
        let results := firstAidAssign (menv.firstAid text) results
        firefightingAssign (menv.firefighting text) results
      else if strategy = "multi_pass_extraction" then
        multi_pass_extraction R env menv text
      else
        (extract_with_ai R env text).map (fun kv => (kv.1, JVal.s kv.2))
    mlFinalize results

/-- The per-field merge rule of the Automatic mode
(sds_extractor.py lines 35-43), as a standalone value. -/
def mergeValue (pattern_data section_data : PyDict String) (field : String) : String :=
  let pattern_value := pdGetD pattern_data field ""
  let section_value := pdGetD section_data field ""
  if pyLen (pyStrip pattern_value) > 3 then pattern_value
  else if pyLen (pyStrip section_value) > 3 then section_value
  else ""

/-- A 501-character string, used to exercise the truncation branch. -/
def longAString : String := ⟨List.replicate 501 'a'⟩

/-- Concrete text for the C4 counterexample: contains the registry-number
trigger and one H-code. -/
def c4Text : String := "872-50-4 H315"

/-- Engine recording the Python `re` results on `c4Text`: the H-code findall
yields ["H315"]; the generic product-name catch-all and the generic CAS
pattern match as shown; every other queried pattern has no match (each lacks
its required literal in the 13-character text). -/
def oracleE1 : ReEngine where
  search := fun pat txt =>
    if txt = c4Text then
      if pat = product_patterns.getD 9 "" then some ⟨"872-50-4 H315", []⟩
      else if pat = cas_patterns.getD 4 "" then some ⟨"872-50-4 ", ["872-50-4"]⟩
      else none
    else none
  findall := fun pat txt =>
    if pat = hCodeFindPattern && txt = c4Text then ["H315"] else []
  finditer3 := fun _ _ => []
  sub := fun _ _ t => t

/-- Concrete text for C9, the specification's end-to-end example. -/
def c9Text : String := "CAS No: 872-50-4\nFlash point: 91°C\n"

/-- Engine recording the Python `re` results on `c9Text`: the first CAS and
flash-point patterns match with the shown captures; the generic product-name
and chemical-formula catch-alls match "CAS No" and "CAS"; every other queried
pattern has no match on this text. -/
def oracleR9 : ReEngine where
  search := fun pat txt =>
    if txt = c9Text then
      if pat = flash_point_patterns.getD 0 "" then some ⟨"Flash point: 91°C", ["91°C"]⟩
      else if pat = product_patterns.getD 9 "" then some ⟨"CAS No", []⟩
      else if pat = cas_patterns.getD 0 "" then some ⟨"CAS No: 872-50-4", ["872-50-4"]⟩
      else if pat = chem_id_patterns.getD 8 "" then some ⟨"CAS", []⟩
      else none
    else none
  findall := fun _ _ => []
  finditer3 := fun _ _ => []
  sub := fun _ _ t => t

/-- Anthropic environment in which every call raises a rate-limited error. -/
def envRateLimited : AIEnv where
  service := some .anthropic
  openaiCall := fun _ => .error ""
  anthropicCall := fun _ _ => .error "HTTP 429 too many requests"
  jsonParse := fun _ => .fail ""

/-- Anthropic environment whose reply is the empty JSON object. -/
def envOkEmpty : AIEnv where
  service := some .anthropic
  openaiCall := fun _ => .error ""
  anthropicCall := fun _ _ => .ok "\x7b\x7d"
  jsonParse := fun s => if s = "\x7b\x7d" then .obj [] else .fail ""

/-- Reply for the C6 counterexample: a fenced block whose content is not
valid JSON, followed by a valid balanced JSON object. -/
def c6Reply : String := "```json notjson``` \x7b\"Product Name\": \"X\"\x7d"

/-- Reply that is a directly-parseable JSON object. -/
def c6wReply : String := "\x7b\"Product Name\": \"X\"\x7d"

/-- Engine recording `re` on `c6Reply`: the fenced-JSON pattern matches with
capture "notjson" (lazy group up to the first closing fence), and the
brace-span pattern matches the trailing JSON object. -/
def oracleC6 : ReEngine where
  search := fun pat txt =>
    if pat = fencedJsonPattern && txt = c6Reply then
      some ⟨"```json notjson```", ["notjson"]⟩
    else if pat = braceSpanPattern && txt = c6Reply then
      some ⟨c6wReply, [c6wReply]⟩
    else none
  findall := fun _ _ => []
  finditer3 := fun _ _ => []
  sub := fun _ _ t => t

/-- Environment replying with `c6Reply`; `json.loads("notjson")` raises with
the shown JSONDecodeError message, while the balanced brace span of the
reply parses to a field map with Product Name "X". -/
def envC6 : AIEnv where
  service := some .anthropic
  openaiCall := fun _ => .error ""
  anthropicCall := fun _ _ => .ok c6Reply
  jsonParse := fun s =>
    if s = c6wReply then .obj [("Product Name", .s "X")]
    else .fail "Expecting value: line 1 column 1 (char 0)"

/-- Environment replying with `c6wReply`, which parses to the shown object. -/
def envC6w : AIEnv where
  service := some .anthropic
  openaiCall := fun _ => .error ""
  anthropicCall := fun _ _ => .ok c6wReply
  jsonParse := fun s =>
    if s = c6wReply then .obj [("Product Name", .s "X")]
    else .fail "Expecting value: line 1 column 1 (char 0)"

/-- Reply used by the C7 counterexample. -/
def c7Reply : String := "\x7b\"Product Name\": \"ZZZ\"\x7d"

/-- Environment replying with `c7Reply`. -/
def envC7 : AIEnv where
  service := some .anthropic
  openaiCall := fun _ => .error ""
  anthropicCall := fun _ _ => .ok c7Reply
  jsonParse := fun s =>
    if s = c7Reply then .obj [("Product Name", .s "ZZZ")] else .fail ""

/-- Document text on which no source pattern matches (it has no letters,
digits or whitespace). -/
def c7Text : String := "....."

/-- The trivial ML environment: every collaborator returns an empty dict. -/
def trivialMLEnv : MLEnv where
  sectionId := fun _ => .ok ()
  identification := fun _ => []
  hazard := fun _ => []
  firstAid := fun _ => []
  firefighting := fun _ => []
  physical := fun _ => []

/-- Environment whose provider error is transient (not rate-limit-classified
by the retry loop) but whose final error message mentions the rate limit, so
the caller-side classification of `extract_from_pdf_with_ai` fires. -/
def envC7w : AIEnv where
  service := some .anthropic
  openaiCall := fun _ => .error ""
  anthropicCall := fun _ _ => .error "rate limit exceeded"
  jsonParse := fun _ => .fail ""

/-- Reply used by the C8 counterexample. -/
def c8Reply : String := "\x7b\"First Aid Measures\": \"Rinse mouth\"\x7d"

/-- Environment replying with `c8Reply`. -/
def envC8 : AIEnv where
  service := some .anthropic
  openaiCall := fun _ => .error ""
  anthropicCall := fun _ _ => .ok c8Reply
  jsonParse := fun s =>
    if s = c8Reply then .obj [("First Aid Measures", .s "Rinse mouth")] else .fail ""

/-- ML environment whose first-aid collaborator returns a dict with one
all-empty sub-category (truthy dict, empty flattening). -/
def menvC8 : MLEnv where
  sectionId := fun _ => .ok ()
  identification := fun _ => []
  hazard := fun _ => []
  firstAid := fun _ => [("Inhalation", .s "")]
  firefighting := fun _ => []
  physical := fun _ => []

/-- Reply used by the C8 witness. -/
def c8wReply : String := "\x7b\"Product Name\": \"KeepMe\"\x7d"

/-- Environment replying with `c8wReply`. -/
def envC8w : AIEnv where
  service := some .anthropic
  openaiCall := fun _ => .error ""
  anthropicCall := fun _ _ => .ok c8wReply
  jsonParse := fun s =>
    if s = c8wReply then .obj [("Product Name", .s "KeepMe")] else .fail ""

theorem pdGet_set_self {α : Type} (d : PyDict α) (k : String) (v : α) :
    pdGet (pdSet d k v) k = some v := by
  induction d with
  | nil => simp [pdSet, pdGet]
  | cons hd t ih =>
    obtain ⟨k', v'⟩ := hd
    by_cases h : k' = k <;> simp [pdSet, pdGet, h, ih]

theorem pdGet_set_ne {α : Type} (d : PyDict α) (k k' : String) (v : α)
    (h : k' ≠ k) : pdGet (pdSet d k v) k' = pdGet d k' := by
  induction d with
  | nil =>
    have h' : ¬ (k = k') := fun hh => h hh.symm
    simp [pdSet, pdGet, h']
  | cons hd t ih =>
    obtain ⟨k'', v''⟩ := hd
    by_cases h2 : k'' = k <;> by_cases h3 : k'' = k' <;>
      simp_all [pdSet, pdGet]

theorem pdKeys_set_of_mem {α : Type} (d : PyDict α) (k : String) (v : α)
    (h : k ∈ pdKeys d) : pdKeys (pdSet d k v) = pdKeys d := by
  induction d with
  | nil => simp [pdKeys] at h
  | cons hd t ih =>
    obtain ⟨k', v'⟩ := hd
    by_cases h2 : k' = k
    · simp [pdSet, pdKeys, h2]
    · simp only [pdKeys, List.map_cons] at h
      rcases List.mem_cons.mp h with h | h
      · exact absurd h.symm h2
      · have := ih (by simpa [pdKeys] using h)
        simp [pdSet, pdKeys, h2] at this ⊢
        exact this

theorem pdGet_mapval {α β : Type} (d : PyDict α) (g : α → β) (k : String) :
    pdGet (d.map (fun kv => (kv.1, g kv.2))) k = (pdGet d k).map g := by
  induction d with
  | nil => simp [pdGet]
  | cons hd t ih =>
    obtain ⟨k', v'⟩ := hd
    by_cases h : k' = k <;> simp [pdGet, h, ih]

theorem pdKeys_mapval {α β : Type} (d : PyDict α) (g : α → β) :
    pdKeys (d.map (fun kv => (kv.1, g kv.2))) = pdKeys d := by
  induction d with
  | nil => rfl
  | cons hd t ih =>
    simp only [pdKeys, List.map_cons, List.cons.injEq, true_and]
    exact ih

theorem pdKeys_const_map (l : List String) (c : String) :
    pdKeys (l.map (fun f => (f, c))) = l := by
  induction l with
  | nil => rfl
  | cons hd t ih =>
    simp only [pdKeys, List.map_cons, List.cons.injEq, true_and] at ih ⊢
    exact ih

theorem pdKeys_foldl_of_writes {β : Type} (l : List β) (K : List String)
    (step : PyDict String → β → PyDict String)
    (hstep : ∀ d f, pdKeys d = K → f ∈ l → pdKeys (step d f) = K) :
    ∀ d, pdKeys d = K → pdKeys (l.foldl step d) = K := by
  induction l with
  | nil => intro d hd; exact hd
  | cons hd' t ih =>
    intro d hd
    exact ih (fun d f hdK hf => hstep d f hdK (List.mem_cons_of_mem _ hf)) _
      (hstep d hd' hd (List.mem_cons_self _ _))

theorem pdGet_foldl_of_other {α β : Type} (l : List β) (k : String)
    (step : PyDict α → β → PyDict α)
    (hstep : ∀ d f, f ∈ l → pdGet (step d f) k = pdGet d k) :
    ∀ d, pdGet (l.foldl step d) k = pdGet d k := by
  induction l with
  | nil => intro d; rfl
  | cons hd t ih =>
    intro d
    rw [List.foldl_cons, ih (fun d f hf => hstep d f (List.mem_cons_of_mem _ hf)),
      hstep d hd (List.mem_cons_self _ _)]

/-- C1: for every engine, text and method, the record returned by
`extract_sds_data` has exactly the keys of the code's `required_fields`
list, in order (so a key of that list is never absent, and every value is a
flat string by the result type); the spec's canonical field set is not this
list (see the counterexample). -/
theorem c1_required_keys (R : ReEngine) (text method : String) :
    pdKeys (extract_sds_data R text method) = required_fields := by
  unfold extract_sds_data
  rw [pdKeys_mapval]
  unfold extract_sds_data_raw
  have h0 : pdKeys (required_fields.map (fun field => (field, ""))) = required_fields :=
    pdKeys_const_map _ _
  split_ifs with h1 h2
  · refine pdKeys_foldl_of_writes _ _ _ ?_ _ h0
    intro d f hdK hf
    dsimp only
    split_ifs
    · exact (pdKeys_set_of_mem _ _ _ (by rw [hdK]; exact hf)).trans hdK
    · exact (pdKeys_set_of_mem _ _ _ (by rw [hdK]; exact hf)).trans hdK
    · exact hdK
  · refine pdKeys_foldl_of_writes _ _ _ ?_ _ h0
    intro d f hdK hf
    dsimp only
    split
    · exact (pdKeys_set_of_mem _ _ _ (by rw [hdK]; exact hf)).trans hdK
    · exact hdK
  · refine pdKeys_foldl_of_writes _ _ _ ?_ _ h0
    intro d f hdK hf
    dsimp only
    split
    · exact (pdKeys_set_of_mem _ _ _ (by rw [hdK]; exact hf)).trans hdK
    · exact hdK

/-- C1 counterexample: the claim's canonical field set includes "CAS Number",
but the record returned by `extract_sds_data` (here on the empty text, in
Automatic mode, with the engine on which no pattern matches) has no
"CAS Number" key at all; the code's `required_fields` list is a different
set. -/
theorem c1_counterexample :
    pdGet (extract_sds_data defaultEngine "" "Automatic") "CAS Number" = none ∧
      "CAS Number" ∉ pdKeys (extract_sds_data defaultEngine "" "Automatic") ∧
      "CAS Number" ∉ required_fields := by
  refine ⟨rfl, by decide, by decide⟩

theorem pdGet_merge_foldl (pd sd : PyDict String) (l : List String) (k : String)
    (hnd : l.Nodup) (hk : k ∈ l) :
    ∀ d, pdGet d k = some "" →
      pdGet (l.foldl (fun d field =>
        let pattern_value := pdGetD pd field ""
        let section_value := pdGetD sd field ""
        if pyLen (pyStrip pattern_value) > 3 then pdSet d field pattern_value
        else if pyLen (pyStrip section_value) > 3 then pdSet d field section_value
        else d) d) k = some (mergeValue pd sd k) := by
  induction l with
  | nil => cases hk
  | cons hd t ih =>
    intro d hd0
    rw [List.foldl_cons]
    rcases List.mem_cons.mp hk with hEq | hMem
    · subst hEq
      have hnotin : k ∉ t := (List.nodup_cons.mp hnd).1
      rw [pdGet_foldl_of_other t k _ (fun d' f hf => by
        have hne : k ≠ f := fun hfk => hnotin (hfk ▸ hf)
        simp only
        split_ifs
        · exact pdGet_set_ne _ _ _ _ hne
        · exact pdGet_set_ne _ _ _ _ hne
        · rfl)]
      simp only [mergeValue]
      split_ifs
      · exact pdGet_set_self _ _ _
      · exact pdGet_set_self _ _ _
      · exact hd0
    · have hne : k ≠ hd := fun hhd => (List.nodup_cons.mp hnd).1 (hhd ▸ hMem)
      refine ih (List.nodup_cons.mp hnd).2 hMem _ ?_
      simp only
      split_ifs
      · rw [pdGet_set_ne _ _ _ _ hne]; exact hd0
      · rw [pdGet_set_ne _ _ _ _ hne]; exact hd0
      · exact hd0

/-- C2: in Automatic mode the value of every required field of the output is
the cleaned merge of the two candidate records: the Pattern-based value when
its trimmed length exceeds 3, else the Section-based value when its trimmed
length exceeds 3, else the empty string; in particular, whenever the
trimmed Pattern-based value is longer than 3 characters, the output is that
value (cleaned) independently of the Section-based value. -/
theorem c2_automatic_merge (R : ReEngine) (text field : String)
    (hf : field ∈ required_fields) :
    pdGet (extract_sds_data R text "Automatic") field =
      some (cleanValue (mergeValue (extract_pattern_based R text)
        (extract_section_based R text) field)) := by
  unfold extract_sds_data
  rw [pdGet_mapval]
  unfold extract_sds_data_raw
  rw [if_pos rfl]
  rw [pdGet_merge_foldl _ _ _ _ (by decide) hf _ (pdGet_of_const_map _ _ _ hf)]
  rfl

/-- Witness for C2 at a concrete field and input. -/
theorem c2_automatic_merge_witness :
    pdGet (extract_sds_data defaultEngine "" "Automatic") "Product Name" =
      some (cleanValue (mergeValue (extract_pattern_based defaultEngine "")
        (extract_section_based defaultEngine "") "Product Name")) :=
  c2_automatic_merge defaultEngine "" "Product Name" (by decide)

/-- C3: every output value of `extract_sds_data` is the cleaned form of the
corresponding raw value (whitespace collapsed and stripped), where cleaning
leaves values of collapsed length at most 500 unchanged and replaces longer
values by exactly their first 497 characters followed by the 3-character
ellipsis, giving length exactly 500. -/
theorem c3_cleanup_law (R : ReEngine) (text method field : String) :
    pdGet (extract_sds_data R text method) field =
      (pdGet (extract_sds_data_raw R text method) field).map cleanValue ∧
    (∀ s : String,
      (pyLen (pyStrip (collapseWs s)) ≤ 500 → cleanValue s = pyStrip (collapseWs s)) ∧
      (pyLen (pyStrip (collapseWs s)) > 500 →
        cleanValue s = pyTake (pyStrip (collapseWs s)) 497 ++ "..." ∧
          pyLen (cleanValue s) = 500)) := by
  refine ⟨pdGet_mapval _ _ _, ?_⟩
  intro s
  constructor
  · intro h
    simp only [cleanValue]
    rw [if_neg (by omega)]
  · intro h
    simp only [cleanValue]
    rw [if_pos h]
    refine ⟨rfl, ?_⟩
    have hdata : (pyTake (pyStrip (collapseWs s)) 497 ++ "...").data =
        (pyStrip (collapseWs s)).data.take 497 ++ "...".data := rfl
    have h' : (pyStrip (collapseWs s)).data.length > 500 := h
    simp only [pyLen, hdata, List.length_append, List.length_take, List.length_cons,
      List.length_nil]
    omega

set_option maxRecDepth 10000 in
/-- Witness for C3: the law applied at a concrete input, together with the
truncation branch exercised on a 501-character value. -/
theorem c3_cleanup_law_witness :
    (pdGet (extract_sds_data defaultEngine "" "Automatic") "Odour" =
      (pdGet (extract_sds_data_raw defaultEngine "" "Automatic") "Odour").map cleanValue) ∧
    (cleanValue longAString = pyTake (pyStrip (collapseWs longAString)) 497 ++ "..." ∧
      pyLen (cleanValue longAString) = 500) :=
  ⟨(c3_cleanup_law defaultEngine "" "Automatic" "Odour").1,
    ((c3_cleanup_law defaultEngine "" "Automatic" "Odour").2 longAString).2 (by decide)⟩

/-- C10: the `light_mode` parameter of `extract_with_ai` is accepted but
never read, so for every engine, environment, text and filename the result is
identical for any two values of the flag — the degraded path promised for the
flag never happens at this interface, and a caller passing
`light_mode=True` still reaches the full provider-call path. -/
theorem c10_light_mode_ignored (R : ReEngine) (env : AIEnv) (text : String)
    (sds_filename : Option String) (b1 b2 : Bool) :
    extract_with_ai R env text sds_filename b1 =
      extract_with_ai R env text sds_filename b2 := rfl

theorem anthropicLoopAux_all_rate_limited (call : Nat → Except String String)
    (h : ∀ n, ∃ e, call n = .error e ∧ isRateLimitError e = true) :
    ∀ fuel rc, anthropicLoopAux call 10 rc fuel = .fellThrough (rc + fuel) := by
  intro fuel
  induction fuel with
  | zero => intro rc; rfl
  | succ n ih =>
    intro rc
    obtain ⟨e, hc, hrl⟩ := h rc
    unfold anthropicLoopAux
    rw [hc]
    simp only [hrl, if_true]
    rw [ih (rc + 1)]
    congr 1
    omega

/-- C5 (code bug): when every Anthropic call raises a rate-limit-classified
error, exactly the configured maximum of 10 attempts are made and no
exception escapes, but the single "error" value is the response-processing
failure message produced by the unbound `response_text` — the
"failed after 10 attempts" return of line 170 is skipped by the rate-limit
branch, so the message contains neither the attempt count nor the word
"attempts". -/
theorem c5_rate_limit_exhaustion (R : ReEngine) (env : AIEnv) (text : String)
    (fn : Option String) (lm : Bool)
    (hserv : env.service = some .anthropic)
    (hrl : ∀ n, ∃ e, env.anthropicCall text n = .error e ∧ isRateLimitError e = true) :
    anthropicLoop (env.anthropicCall text) 10 0 = .fellThrough 10 ∧
    extract_with_ai R env text fn lm = [("error", unboundProcessFailMsg)] ∧
    pyContains unboundProcessFailMsg "10" = false ∧
    pyContains unboundProcessFailMsg "attempts" = false := by
  have hloop : anthropicLoop (env.anthropicCall text) 10 0 = .fellThrough 10 := by
    unfold anthropicLoop
    simpa using anthropicLoopAux_all_rate_limited _ hrl 10 0
  refine ⟨hloop, ?_, by decide, by decide⟩
  unfold extract_with_ai
  rw [hserv]
  simp only [hloop]

/-- Witness for C5 at a concrete environment whose every call raises
"HTTP 429 too many requests". -/
theorem c5_rate_limit_exhaustion_witness :
    anthropicLoop (envRateLimited.anthropicCall "doc") 10 0 = .fellThrough 10 ∧
    extract_with_ai defaultEngine envRateLimited "doc" none false =
      [("error", unboundProcessFailMsg)] ∧
    pyContains unboundProcessFailMsg "10" = false ∧
    pyContains unboundProcessFailMsg "attempts" = false :=
  c5_rate_limit_exhaustion defaultEngine envRateLimited "doc" none false rfl
    (fun _ => ⟨"HTTP 429 too many requests", rfl, by decide⟩)

/-- C6 counterexample: the reply `c6Reply` carries a fenced block with
invalid JSON followed by a balanced brace span that parses to a field map
with Product Name "X" (so the claim's fallback chain predicts recovery of
"X"), yet `extract_with_ai` returns the explicit process-error result and no
Product Name, because a matched fenced block whose content fails to parse is
never followed by the later stages. -/
theorem c6_counterexample :
    pdGet (extract_with_ai oracleC6 envC6 "doc" none false) "Product Name" = none ∧
    extract_with_ai oracleC6 envC6 "doc" none false =
      [("error", "Failed to process Anthropic response: Expecting value: line 1 column 1 (char 0)")] ∧
    oracleC6.search braceSpanPattern c6Reply = some ⟨c6wReply, [c6wReply]⟩ ∧
    envC6.jsonParse c6wReply = .obj [("Product Name", JVal.s "X")] :=
  ⟨rfl, rfl, rfl, rfl⟩

/-- C6 (amended): response parsing tries the fenced ```json block, then the
whole reply, then the first-to-last brace span — but each later stage runs
only when the earlier stage's regex or parse precondition fails to FIND
anything, not when its parse fails: a matched fenced block with invalid JSON
yields the process-error result without trying later stages; a failed direct
parse with a brace span that also fails to parse yields the explicit
parse-error result; and when no brace span exists at all the function
returns a record of empty canonical fields rather than an error.  The two
recovery regimes the specification illustrates (fenced block with prose
around it; balanced brace span with trailing prose) do hold. -/
theorem c6_amended (R : ReEngine) (env : AIEnv) (text t : String)
    (fn : Option String) (lm : Bool)
    (hserv : env.service = some .anthropic)
    (hcall : env.anthropicCall text 0 = .ok t) :
    (∀ m d, R.search fencedJsonPattern t = some m →
      env.jsonParse (m.groups.headD "") = .obj d →
      extract_with_ai R env text fn lm = postprocessAI text d) ∧
    (∀ d, R.search fencedJsonPattern t = none →
      env.jsonParse t = .obj d →
      extract_with_ai R env text fn lm = postprocessAI text d) ∧
    (∀ msg m d, R.search fencedJsonPattern t = none →
      env.jsonParse t = .fail msg →
      R.search braceSpanPattern t = some m →
      env.jsonParse (m.groups.headD "") = .obj d →
      extract_with_ai R env text fn lm = postprocessAI text d) ∧
    (∀ msg m msg2, R.search fencedJsonPattern t = none →
      env.jsonParse t = .fail msg →
      R.search braceSpanPattern t = some m →
      env.jsonParse (m.groups.headD "") = .fail msg2 →
      extract_with_ai R env text fn lm = [("error", "Failed to parse AI response")]) ∧
    (∀ msg, R.search fencedJsonPattern t = none →
      env.jsonParse t = .fail msg →
      R.search braceSpanPattern t = none →
      extract_with_ai R env text fn lm = postprocessAI text []) ∧
    (∀ m msg, R.search fencedJsonPattern t = some m →
      env.jsonParse (m.groups.headD "") = .fail msg →
      extract_with_ai R env text fn lm =
        [("error", "Failed to process Anthropic response: " ++ msg)]) := by
  have hloop : anthropicLoop (env.anthropicCall text) 10 0 = .success t 1 := by
    unfold anthropicLoop anthropicLoopAux
    rw [hcall]
  refine ⟨?_, ?_, ?_, ?_, ?_, ?_⟩
  · intro m d h1 h2
    unfold extract_with_ai
    rw [hserv]
    simp only [hloop]
    unfold processAnthropicResponse
    simp only [h1, h2]
  · intro d h1 h2
    unfold extract_with_ai
    rw [hserv]
    simp only [hloop]
    unfold processAnthropicResponse
    simp only [h1, h2]
  · intro msg m d h1 h2 h3 h4
    unfold extract_with_ai
    rw [hserv]
    simp only [hloop]
    unfold processAnthropicResponse
    simp only [h1, h2, h3, h4]
  · intro msg m msg2 h1 h2 h3 h4
    unfold extract_with_ai
    rw [hserv]
    simp only [hloop]
    unfold processAnthropicResponse
    simp only [h1, h2, h3, h4]
  · intro msg h1 h2 h3
    unfold extract_with_ai
    rw [hserv]
    simp only [hloop]
    unfold processAnthropicResponse
    simp only [h1, h2, h3]
  · intro m msg h1 h2
    unfold extract_with_ai
    rw [hserv]
    simp only [hloop]
    unfold processAnthropicResponse
    simp only [h1, h2]

/-- Witness for the amended C6: the direct-parse regime recovers the field
map of a plain JSON reply. -/
theorem c6_amended_witness :
    extract_with_ai defaultEngine envC6w "doc" none false =
      postprocessAI "doc" [("Product Name", JVal.s "X")] ∧
    pdGet (extract_with_ai defaultEngine envC6w "doc" none false) "Product Name" =
      some "X" :=
  ⟨(c6_amended defaultEngine envC6w "doc" c6wReply none false rfl rfl).2.1
      [("Product Name", JVal.s "X")] rfl rfl, rfl⟩

set_option maxRecDepth 10000 in
set_option maxHeartbeats 2000000 in
/-- C7 counterexample: in `extract_sds_with_ml`, light mode does not return
the Pattern-based result with the filename attached — it delegates to
`extract_with_ai` (whose light_mode flag is ignored), so the result carries
the model reply's Product Name "ZZZ", has no Source File key, and differs
from the Pattern-based extraction of the same text (Product Name empty). -/
theorem c7_counterexample :
    pdGet (extract_sds_with_ml defaultEngine envC7 trivialMLEnv c7Text
      "multi_pass_extraction" true) "Product Name" = some "ZZZ" ∧
    pdGet (extract_sds_with_ml defaultEngine envC7 trivialMLEnv c7Text
      "multi_pass_extraction" true) "Source File" = none ∧
    pdGet (extract_sds_data defaultEngine c7Text "Pattern-based") "Product Name" =
      some "" :=
  ⟨rfl, rfl, rfl⟩

/-- C7 (amended): in `extract_from_pdf_with_ai`, light mode performs no model
call (the result is the Pattern-based record with Source File attached and is
independent of the provider environment), and a live call whose error result
is rate-limit-classified triggers exactly one automatic light-mode
invocation; in `extract_sds_with_ml`, by contrast, light mode delegates to
`extract_with_ai` with the ignored flag and therefore still performs the full
provider call. -/
theorem c7_amended (R : ReEngine) (env env2 : AIEnv) (menv : MLEnv)
    (text filename strategy : String) :
    (extract_from_pdf_with_ai R env text filename true =
      lightModeResult R text filename ∧
     extract_from_pdf_with_ai R env text filename true =
      extract_from_pdf_with_ai R env2 text filename true) ∧
    (∀ e, pdGet (extract_with_ai R env text (some filename)) "error" = some e →
      pdfRateLimitCheck e = true →
      extract_from_pdf_with_ai R env text filename false =
        lightModeResult R text filename) ∧
    (text ≠ "" → env.service.isSome = true →
      extract_sds_with_ml R env menv text strategy true =
        mlFinalize ((extract_with_ai R env text none false).map
          (fun kv => (kv.1, JVal.s kv.2)))) := by
  refine ⟨⟨?_, ?_⟩, ?_, ?_⟩
  · unfold extract_from_pdf_with_ai
    rw [if_pos rfl]
  · unfold extract_from_pdf_with_ai
    rw [if_pos rfl, if_pos rfl]
  · intro e he hc
    have hdef : extract_from_pdf_with_ai R env text filename false =
        match pdGet (extract_with_ai R env text (some filename)) "error" with
        | some e =>
          if pdfRateLimitCheck e then lightModeResult R text filename
          else extract_with_ai R env text (some filename)
        | none => extract_with_ai R env text (some filename) := rfl
    rw [hdef, he]
    dsimp only
    rw [if_pos hc]
  · intro htext hserv
    obtain ⟨sv, hsv⟩ := Option.isSome_iff_exists.mp hserv
    unfold extract_sds_with_ml
    rw [if_neg htext, hsv, Option.isNone_some]
    rw [if_neg Bool.false_ne_true]
    dsimp only
    rw [if_pos rfl]
    rfl

/-- Witness for the amended C7: the rate-limit fallback branch at a concrete
environment whose final error message mentions the rate limit, and the
light-mode delegation of `extract_sds_with_ml` at a concrete environment. -/
theorem c7_amended_witness :
    extract_from_pdf_with_ai defaultEngine envC7w c7Text "file.pdf" false =
      lightModeResult defaultEngine c7Text "file.pdf" ∧
    extract_sds_with_ml defaultEngine envC7 trivialMLEnv c7Text
      "multi_pass_extraction" true =
      mlFinalize ((extract_with_ai defaultEngine envC7 c7Text none false).map
        (fun kv => (kv.1, JVal.s kv.2))) :=
  ⟨(c7_amended defaultEngine envC7w envC7w trivialMLEnv c7Text "file.pdf"
      "multi_pass_extraction").2.1
      "Anthropic API extraction failed after 10 attempts: rate limit exceeded"
      rfl (by decide),
    (c7_amended defaultEngine envC7 envC7 trivialMLEnv c7Text "file.pdf"
      "multi_pass_extraction").2.2 (by decide) rfl⟩

theorem pdGet_fillIfEmptyFold (k : String) (w : JVal) (hw : w.truthy = true) :
    ∀ (src dst : PyDict JVal), pdGet dst k = some w →
      pdGet (fillIfEmptyFold src dst) k = some w := by
  intro src
  induction src with
  | nil => intro dst h; exact h
  | cons kv t ih =>
    intro dst h
    show pdGet (List.foldl _ _ (kv :: t)) k = some w
    rw [List.foldl_cons]
    refine ih _ ?_
    by_cases hk : kv.1 = k
    · rw [if_pos (by unfold jobjHasTruthy; rw [hk, h]; exact hw)]
      exact h
    · split_ifs with hguard
      · exact h
      · rw [pdGet_set_ne _ _ _ _ (fun he => hk he.symm)]
        exact h

theorem pdGet_condFill (d : PyDict JVal) (key k : String) (w : JVal) (e : PyDict JVal)
    (hget : pdGet d k = some w) (hw : w.truthy = true)
    (he : k ≠ key → pdGet e k = pdGet d k) :
    pdGet (if jobjHasTruthy d key then d else e) k = some w := by
  by_cases hk : k = key
  · subst hk
    rw [if_pos (by unfold jobjHasTruthy; rw [hget]; exact hw)]
    exact hget
  · split_ifs with h
    · exact hget
    · rw [he hk]
      exact hget

theorem pdGet_firstAidAssign_ne (fa d : PyDict JVal) (k : String)
    (h : k ≠ "First Aid Measures") :
    pdGet (firstAidAssign fa d) k = pdGet d k := by
  unfold firstAidAssign
  split_ifs
  · exact pdGet_set_ne _ _ _ _ h
  · rfl

theorem pdGet_firefightingAssign_ne (ff d : PyDict JVal) (k : String)
    (h : k ≠ "Firefighting Measures") :
    pdGet (firefightingAssign ff d) k = pdGet d k := by
  unfold firefightingAssign
  split_ifs
  · exact pdGet_set_ne _ _ _ _ h
  · rfl

theorem pdGet_physicalFill (ph d : PyDict JVal) (k : String) (w : JVal)
    (hget : pdGet d k = some w) (hw : w.truthy = true) :
    pdGet (physicalFill ph d) k = some w := by
  unfold physicalFill
  split_ifs
  · exact pdGet_fillIfEmptyFold _ _ hw _ _ hget
  · exact hget

theorem pdGet_hierHazardAssign_ne (hz d : PyDict JVal) (k : String)
    (h1 : k ≠ "Health Hazards") (h2 : k ≠ "Hazard Statements") (h3 : k ≠ "Pictograms") :
    pdGet (hierHazardAssign hz d) k = pdGet d k := by
  unfold hierHazardAssign
  by_cases hguard : (jobjTruthy hz && !(pdHas hz "error")) = true
  · rw [if_pos hguard]
    dsimp only
    split <;> (try rw [pdGet_set_ne _ _ _ _ h3]) <;>
      split <;> (try rw [pdGet_set_ne _ _ _ _ h2]) <;>
      split <;> (try rw [pdGet_set_ne _ _ _ _ h1]) <;> rfl
  · rw [if_neg hguard]

theorem pdGet_multiPassHazardAssign (R : ReEngine) (hz d : PyDict JVal)
    (k : String) (w : JVal) (hget : pdGet d k = some w) (hw : w.truthy = true) :
    pdGet (multiPassHazardAssign R hz d) k = some w := by
  unfold multiPassHazardAssign
  by_cases hguard : (jobjTruthy hz && !(pdHas hz "error")) = true
  · rw [if_pos hguard]
    dsimp only
    refine pdGet_condFill _ _ _ _ _ ?_ hw ?_
    · refine pdGet_condFill _ _ _ _ _ ?_ hw ?_
      · refine pdGet_condFill _ _ _ _ _ ?_ hw ?_
        · refine pdGet_condFill _ _ _ _ _ ?_ hw ?_
          · refine pdGet_condFill _ _ _ _ _ hget hw ?_
            intro hk
            split <;> first | rfl | exact pdGet_set_ne _ _ _ _ hk
          · intro hk
            split <;> first | rfl | exact pdGet_set_ne _ _ _ _ hk
        · intro hk
          split <;> first | rfl | exact pdGet_set_ne _ _ _ _ hk
      · intro hk
        split <;> first | rfl | exact pdGet_set_ne _ _ _ _ hk
    · intro hk
      split <;> first | rfl | exact pdGet_set_ne _ _ _ _ hk
  · rw [if_neg hguard]
    exact hget

/-- C8 counterexample: the basic single-shot result holds the non-empty
First Aid Measures value "Rinse mouth", yet the multi-pass combine replaces
it with the empty string, because the specialized first-aid assignment
overwrites unconditionally (here with a truthy dict whose only sub-category
is empty). -/
theorem c8_counterexample :
    pdGet (extract_with_ai defaultEngine envC8 "x") "First Aid Measures" =
      some "Rinse mouth" ∧
    pdGet (multi_pass_extraction defaultEngine envC8 menvC8 "x") "First Aid Measures" =
      some (JVal.s "") :=
  ⟨rfl, rfl⟩

/-- C8 (amended): the hierarchical-result and physical-property merges are
fill-if-currently-empty and never replace a non-empty value, so in the
multi-pass combine every field other than First Aid Measures and
Firefighting Measures keeps its non-empty basic value; and in the
hierarchical fold every field other than those two and the hazard fields
(Health Hazards, Hazard Statements, Pictograms) keeps its non-empty
identification value.  The excluded fields are overwritten unconditionally
by the specialized assignments, possibly with an empty string. -/
theorem c8_amended (R : ReEngine) (env : AIEnv) (menv : MLEnv) (text k v : String)
    (hk1 : k ≠ "First Aid Measures") (hk2 : k ≠ "Firefighting Measures")
    (hbasic : pdGet (extract_with_ai R env text) k = some v) (hv : v ≠ "") :
    pdGet (multi_pass_extraction R env menv text) k = some (JVal.s v) ∧
    (∀ w : JVal, k ≠ "Health Hazards" → k ≠ "Hazard Statements" → k ≠ "Pictograms" →
      env.service.isSome = true → menv.sectionId text = .ok () →
      pdGet (menv.identification text) k = some w → w.truthy = true →
      pdGet (hierarchical_extraction env menv text) k = some w) := by
  have hwts : (JVal.s v).truthy = true := by
    simp only [JVal.truthy, Bool.not_eq_true', beq_eq_false_iff_ne]
    exact hv
  constructor
  · unfold multi_pass_extraction
    dsimp only
    refine pdGet_physicalFill _ _ _ _ ?_ hwts
    refine pdGet_multiPassHazardAssign _ _ _ _ _ ?_ hwts
    rw [pdGet_firefightingAssign_ne _ _ _ hk2, pdGet_firstAidAssign_ne _ _ _ hk1]
    refine pdGet_fillIfEmptyFold _ _ hwts _ _ ?_
    rw [pdGet_mapval, hbasic]
    rfl
  · intro w hk3 hk4 hk5 hserv hsec hid hw
    obtain ⟨sv, hsv⟩ := Option.isSome_iff_exists.mp hserv
    unfold hierarchical_extraction
    rw [hsv, Option.isNone_some, if_neg Bool.false_ne_true, hsec]
    dsimp only
    refine pdGet_physicalFill _ _ _ _ ?_ hw
    rw [pdGet_firefightingAssign_ne _ _ _ hk2, pdGet_firstAidAssign_ne _ _ _ hk1,
      pdGet_hierHazardAssign_ne _ _ _ hk3 hk4 hk5]
    exact hid

/-- Witness for the amended C8 at a concrete environment: the basic result's
non-empty Product Name survives the multi-pass combine. -/
theorem c8_amended_witness :
    pdGet (multi_pass_extraction defaultEngine envC8w menvC8 "x") "Product Name" =
      some (JVal.s "KeepMe") :=
  (c8_amended defaultEngine envC8w menvC8 "x" "Product Name" "KeepMe"
    (by decide) (by decide) rfl (by decide)).1

theorem pdGet_ite {α : Type} (c : Prop) [Decidable c] (a b : PyDict α) (k : String) :
    pdGet (if c then a else b) k = if c then pdGet a k else pdGet b k := by
  split_ifs <;> rfl

theorem pdGet_mappingStep_other (d : PyDict String) (kv : String × String) (k : String)
    (h : kv.2 ≠ k) : pdGet (mappingStep d kv) k = pdGet d k := by
  unfold mappingStep
  split
  · split_ifs
    · exact pdGet_set_ne _ _ _ _ (fun he => h he.symm)
    · rfl
  · rfl

theorem pdGet_defaultStep_other (d : PyDict String) (kv : String × String) (k : String)
    (h : kv.1 ≠ k) : pdGet (defaultStep d kv) k = pdGet d k := by
  unfold defaultStep
  split_ifs
  · exact pdGet_set_ne _ _ _ _ (fun he => h he.symm)
  · rfl

theorem pdGet_apply_field_mappings_other (d : PyDict String) (k : String)
    (h1 : ∀ kv ∈ field_mapping, kv.2 ≠ k) (h2 : ∀ kv ∈ default_values, kv.1 ≠ k) :
    pdGet (apply_field_mappings d) k = pdGet d k := by
  unfold apply_field_mappings
  rw [pdGet_foldl_of_other _ _ _ (fun d' kv hkv => pdGet_defaultStep_other d' kv k (h2 kv hkv)),
    pdGet_foldl_of_other _ _ _ (fun d' kv hkv => pdGet_mappingStep_other d' kv k (h1 kv hkv))]

theorem pdGet_mapfold_health (l : List (String × String))
    (hl : ∀ kv ∈ l, kv.2 = "Health Hazards" → kv.1 = "Hazard Statement")
    (hl2 : ∀ kv ∈ l, kv.2 ≠ "Hazard Statement") :
    ∀ d, pdGet d "Hazard Statement" = some "" →
      pdGet (l.foldl mappingStep d) "Health Hazards" = pdGet d "Health Hazards" := by
  induction l with
  | nil => intro d _; rfl
  | cons kv t ih =>
    intro d hhs
    rw [List.foldl_cons]
    have hpres : pdGet (mappingStep d kv) "Hazard Statement" = some "" := by
      rw [pdGet_mappingStep_other d kv _ (hl2 kv (List.mem_cons_self _ _))]
      exact hhs
    rw [ih (fun kv2 h2 e => hl kv2 (List.mem_cons_of_mem _ h2) e)
      (fun kv2 h2 => hl2 kv2 (List.mem_cons_of_mem _ h2)) _ hpres]
    by_cases hh : kv.2 = "Health Hazards"
    · have h1 : kv.1 = "Hazard Statement" := hl kv (List.mem_cons_self _ _) hh
      unfold mappingStep
      rw [h1, hhs]
      simp
    · exact pdGet_mappingStep_other d kv _ hh

theorem postprocessAI_nmp (text : String) (d : PyDict JVal) (h : aiNmpCheck text = true) :
    pdGet (postprocessAI text d) "Health Hazards" = some nmpHealthHazardsPhrase ∧
    pdGet (postprocessAI text d) "Odour" = some "amine" := by
  unfold postprocessAI
  dsimp only
  rw [if_pos h]
  constructor
  · rw [pdGet_mapval, pdGet_set_ne _ _ _ _ (by decide), pdGet_set_self]
    rfl
  · rw [pdGet_mapval, pdGet_set_self]
    rfl

theorem extract_with_ai_cases (R : ReEngine) (env : AIEnv) (text : String)
    (fn : Option String) (lm : Bool) :
    (∃ d, extract_with_ai R env text fn lm = postprocessAI text d) ∨
    (∃ m, extract_with_ai R env text fn lm = [("error", m)]) := by
  unfold extract_with_ai
  rcases hs : env.service with _ | sv
  · exact Or.inr ⟨_, rfl⟩
  · rcases sv with _ | _
    · dsimp only
      rcases ho : env.openaiCall text with e | rt
      · exact Or.inr ⟨_, rfl⟩
      · dsimp only
        rcases hj : env.jsonParse rt with d | msg
        · exact Or.inl ⟨d, rfl⟩
        · exact Or.inr ⟨_, rfl⟩
    · dsimp only
      rcases hl : anthropicLoop (env.anthropicCall text) 10 0 with ⟨rt, n⟩ | ⟨n⟩ | ⟨m, n⟩
      · dsimp only
        rcases hp : processAnthropicResponse R env rt with m | d
        · exact Or.inr ⟨_, rfl⟩
        · exact Or.inl ⟨d, rfl⟩
      · exact Or.inr ⟨_, rfl⟩
      · exact Or.inr ⟨_, rfl⟩

theorem extract_with_ai_success_shape (R : ReEngine) (env : AIEnv) (text : String)
    (fn : Option String) (lm : Bool)
    (hok : pdGet (extract_with_ai R env text fn lm) "error" = none) :
    ∃ d, extract_with_ai R env text fn lm = postprocessAI text d := by
  rcases extract_with_ai_cases R env text fn lm with h | ⟨m, hm⟩
  · exact h
  · rw [hm] at hok
    simp [pdGet] at hok

theorem pattern_data_odour_nmp (R : ReEngine) (t : String)
    (htrig : nmpTriggered t = true) :
    pdGet (pattern_data R t) "Odour" = some "amine" := by
  simp only [pattern_data]
  simp only [pdGet_set_ne, pdGet_set_self, ne_eq, String.reduceEq,
    not_false_eq_true, htrig, reduceIte]

theorem pattern_data_health_nmp (R : ReEngine) (t : String)
    (htrig : nmpTriggered t = true) :
    pdGet (pattern_data R t) "Health Hazards" = some nmpHealthHazardsPhrase := by
  simp only [pattern_data]
  simp only [pdGet_set_ne, pdGet_set_self, ne_eq, String.reduceEq,
    not_false_eq_true, htrig, reduceIte]

theorem pattern_data_hazard_stmt_empty (R : ReEngine) (t : String)
    (hstmt : extract_with_patterns R t hazard_stmt_patterns = "")
    (hfind : R.findall hCodeFindPattern t = []) :
    pdGet (pattern_data R t) "Hazard Statement" = some "" := by
  have hsv : hazardStatementValue R t = "" := by
    simp only [hazardStatementValue, hstmt, hfind, String.reduceEq, reduceIte,
      ne_eq, eq_self_iff_true, not_true, if_false]
  simp only [pattern_data, hfind, List.filterMap_nil, ne_eq, eq_self_iff_true,
    not_true, false_and, if_false, pdGet_set_ne, pdGet_set_self,
    String.reduceEq, not_false_eq_true, hsv]

theorem pdGet_apply_field_mappings_health (d : PyDict String)
    (hhs : pdGet d "Hazard Statement" = some "") :
    pdGet (apply_field_mappings d) "Health Hazards" = pdGet d "Health Hazards" := by
  have hdef : ∀ kv ∈ default_values, kv.1 ≠ "Health Hazards" := by decide
  have hA : ∀ kv ∈ field_mapping, kv.2 = "Health Hazards" → kv.1 = "Hazard Statement" := by
    decide
  have hB : ∀ kv ∈ field_mapping, kv.2 ≠ "Hazard Statement" := by decide
  unfold apply_field_mappings
  rw [pdGet_foldl_of_other _ _ _ (fun d' kv hkv => pdGet_defaultStep_other d' kv _ (hdef kv hkv)),
    pdGet_mapfold_health field_mapping hA hB d hhs]

set_option maxRecDepth 10000 in
/-- C4 (counterexample): on the text "872-50-4 H315" the trigger fires, yet
pattern-based extraction returns Health Hazards = "H315": the final
field-mapping pass copies the non-empty Hazard Statement over the canonical
NMP phrase, so the override is not applied "regardless of what any other
pattern would have matched". -/
theorem c4_counterexample :
    nmpTriggered c4Text = true ∧
    pdGet (extract_pattern_based oracleE1 c4Text) "Health Hazards" = some "H315" ∧
    pdGet (extract_pattern_based oracleE1 c4Text) "Health Hazards" ≠
      some nmpHealthHazardsPhrase := by
  refine ⟨by decide, by decide, by decide⟩

/-- C4 (amended): when the NMP trigger fires, pattern-based extraction sets
Odour to "amine" unconditionally (for every engine and triggering text, with
no further hypotheses), and sets Health Hazards to the canonical phrase
provided no hazard-statement pattern matched and no H-codes were found
(otherwise the final field-mapping pass overwrites it); on the AI side the
override does hold unconditionally on every successful (non-error) result. -/
theorem c4_amended (R : ReEngine) (t : String) (R2 : ReEngine) (env : AIEnv)
    (text2 : String) (fn : Option String) (lm : Bool)
    (htrig : nmpTriggered t = true)
    (hai : aiNmpCheck text2 = true)
    (haiok : pdGet (extract_with_ai R2 env text2 fn lm) "error" = none) :
    pdGet (extract_pattern_based R t) "Odour" = some "amine" ∧
    (extract_with_patterns R t hazard_stmt_patterns = "" →
      R.findall hCodeFindPattern t = [] →
      pdGet (extract_pattern_based R t) "Health Hazards" = some nmpHealthHazardsPhrase) ∧
    pdGet (extract_with_ai R2 env text2 fn lm) "Health Hazards" =
      some nmpHealthHazardsPhrase ∧
    pdGet (extract_with_ai R2 env text2 fn lm) "Odour" = some "amine" := by
  obtain ⟨d, hd⟩ := extract_with_ai_success_shape R2 env text2 fn lm haiok
  refine ⟨?_, ?_, ?_, ?_⟩
  · unfold extract_pattern_based
    rw [pdGet_apply_field_mappings_other _ _ (by decide) (by decide),
      pattern_data_odour_nmp R t htrig]
  · intro hstmt hfind
    unfold extract_pattern_based
    rw [pdGet_apply_field_mappings_health _ (pattern_data_hazard_stmt_empty R t hstmt hfind),
      pattern_data_health_nmp R t htrig]
  · rw [hd]
    exact (postprocessAI_nmp text2 d hai).1
  · rw [hd]
    exact (postprocessAI_nmp text2 d hai).2

/-- C4 (amended) witness: the Odour override on the H-code-bearing
counterexample text (where the Health Hazards override fails), the full
pattern-side override on the text "872-50-4" with an engine on which no
pattern matches, and the AI-side override with a provider that returns an
empty JSON object. -/
theorem c4_amended_witness :
    pdGet (extract_pattern_based oracleE1 c4Text) "Odour" = some "amine" ∧
    pdGet (extract_pattern_based defaultEngine "872-50-4") "Odour" = some "amine" ∧
    pdGet (extract_pattern_based defaultEngine "872-50-4") "Health Hazards" =
      some nmpHealthHazardsPhrase ∧
    pdGet (extract_with_ai defaultEngine envOkEmpty "872-50-4" none false) "Health Hazards" =
      some nmpHealthHazardsPhrase ∧
    pdGet (extract_with_ai defaultEngine envOkEmpty "872-50-4" none false) "Odour" =
      some "amine" :=
  have h1 := c4_amended oracleE1 c4Text defaultEngine envOkEmpty "872-50-4" none false
    (by decide) (by decide) (by decide)
  have h2 := c4_amended defaultEngine "872-50-4" defaultEngine envOkEmpty "872-50-4"
    none false (by decide) (by decide) (by decide)
  ⟨h1.1, h2.1, h2.2.1 (by decide) (by decide), h2.2.2.1, h2.2.2.2⟩

set_option maxRecDepth 10000 in
/-- C9 (counterexample): on the specification\x27s end-to-end example text the
pattern layer does extract CAS Number = "872-50-4", but the final record of
`extract_sds_data` in Pattern-based mode has no "CAS Number" key at all:
the required-field list spells the key "Number", and the field-mapping pass
moves the CAS value to "Description". -/
theorem c9_counterexample :
    pyContains c9Text "CAS No: 872-50-4" = true ∧
    pyContains c9Text "Flash point: 91°C" = true ∧
    pdGet (extract_pattern_based oracleR9 c9Text) "CAS Number" = some "872-50-4" ∧
    pdGet (extract_sds_data oracleR9 c9Text "Pattern-based") "CAS Number" = none := by
  refine ⟨by decide, by decide, by decide, by decide⟩

set_option maxRecDepth 10000 in
/-- C9 (amended): on the same example text the extracted CAS value survives
under the "Description" key of the final record, and the
"Flash Point (Deg C)" value contains "91". -/
theorem c9_amended :
    pdGet (extract_sds_data oracleR9 c9Text "Pattern-based") "Description" =
      some "872-50-4" ∧
    pyContains (pdGetD (extract_sds_data oracleR9 c9Text "Pattern-based")
      "Flash Point (Deg C)" "") "91" = true := by
  refine ⟨by decide, by decide⟩
